import Mathlib

/-!
Verification of the resume-intelligence engine (section segmentation, skill
normalization, duration parsing, quality scoring and job matching) against its
natural-language specification.

Python strings are modelled as lists of character codes (`PyStr := List Nat`),
with ASCII semantics for `lower`, `upper`, `title`, `strip` — all string data
in the program's configuration tables is ASCII.  Python floats are modelled as
exact rationals (`ℚ`).
-/

namespace Resume

/-- A Python string, as its list of character code points. -/
abbrev PyStr := List Nat

/-- Build a `PyStr` literal from a Lean string (ASCII data only). -/
def pstr (s : String) : PyStr := s.toList.map Char.toNat

/-- Python `str.isspace` on a single character (ASCII whitespace). -/
def isSpaceC (n : Nat) : Bool := n = 32 || n = 9 || n = 10 || n = 13 || n = 11 || n = 12

/-- ASCII uppercase letter test. -/
def isUpperC (n : Nat) : Bool := decide (65 ≤ n) && decide (n ≤ 90)

/-- ASCII lowercase letter test. -/
def isLowerC (n : Nat) : Bool := decide (97 ≤ n) && decide (n ≤ 122)

/-- ASCII letter test (Python `str.isalpha` restricted to ASCII). -/
def isAlphaC (n : Nat) : Bool := isUpperC n || isLowerC n

/-- ASCII digit test. -/
def isDigitC (n : Nat) : Bool := decide (48 ≤ n) && decide (n ≤ 57)

/-- Regex word character (`\w`): letter, digit or underscore. -/
def isWordC (n : Nat) : Bool := isAlphaC n || isDigitC n || n = 95

/-- Lowercase one ASCII character code. -/
def toLowerC (n : Nat) : Nat := if isUpperC n then n + 32 else n

/-- Uppercase one ASCII character code. -/
def toUpperC (n : Nat) : Nat := if isLowerC n then n - 32 else n

/-- Python `str.lower` (ASCII). -/
def pyLower (s : PyStr) : PyStr := s.map toLowerC

/-- Python `str.strip`: remove leading and trailing whitespace. -/
def pyStrip (s : PyStr) : PyStr :=
  ((s.dropWhile isSpaceC).reverse.dropWhile isSpaceC).reverse

/-- One step of Python `str.title`: `prev` records whether the previous
character was a letter. -/
def titleChar (prev : Bool) (c : Nat) : Nat :=
  if isAlphaC c then (if prev then toLowerC c else toUpperC c) else c

/-- Worker for Python `str.title`. -/
def titleGo (prev : Bool) : PyStr → PyStr
  | [] => []
  | c :: cs => titleChar prev c :: titleGo (isAlphaC c) cs

/-- Python `str.title` (ASCII): first letter of each alphabetic run is
uppercased, the rest lowercased. -/
def pyTitle (s : PyStr) : PyStr := titleGo false s

/-- Python substring test `needle in hay`. -/
def pyContains (hay needle : PyStr) : Bool :=
  hay.tails.any fun t => needle.isPrefixOf t

/-- Python `min` on two rationals (returns the first argument on ties, as
Python does). -/
def pymin (a b : ℚ) : ℚ := if a ≤ b then a else b

/-- Python `max` on two rationals. -/
def pymax (a b : ℚ) : ℚ := if b ≤ a then a else b

/-- Python `max` on two integers. -/
def pymaxI (a b : Int) : Int := if b ≤ a then a else b

/-- Python `text.split('\n')`. -/
def pySplitLines : PyStr → List PyStr
  | [] => [[]]
  | c :: cs =>
      let rest := pySplitLines cs
      if c = 10 then [] :: rest
      else (c :: rest.headI) :: rest.tail

end Resume

namespace Resume

/-! ## Skill normalizer (`src/utils/skill_normalizer.py`) -/

/-- `SkillNormalizer.SKILL_ALIASES`: the static alias table, in source order. -/
def SKILL_ALIASES : List (PyStr × PyStr) :=
  [ (pstr "js", pstr "JavaScript")
  , (pstr "ts", pstr "TypeScript")
  , (pstr "py", pstr "Python")
  , (pstr "rb", pstr "Ruby")
  , (pstr "cpp", pstr "C++")
  , (pstr "csharp", pstr "C#")
  , (pstr "objective-c", pstr "Objective-C")
  , (pstr "objc", pstr "Objective-C")
  , (pstr "fsharp", pstr "F#")
  , (pstr "golang", pstr "Go")
  , (pstr "rs", pstr "Rust")
  , (pstr "php", pstr "PHP")
  , (pstr "swift", pstr "Swift")
  , (pstr "kotlin", pstr "Kotlin")
  , (pstr "scala", pstr "Scala")
  , (pstr "matlab", pstr "MATLAB")
  , (pstr "r programming", pstr "R")
  , (pstr "sql", pstr "SQL")
  , (pstr "t-sql", pstr "T-SQL")
  , (pstr "plsql", pstr "PL/SQL")
  , (pstr "html5", pstr "HTML")
  , (pstr "css3", pstr "CSS")
  , (pstr "reactjs", pstr "React")
  , (pstr "react.js", pstr "React")
  , (pstr "vuejs", pstr "Vue.js")
  , (pstr "vue.js", pstr "Vue.js")
  , (pstr "angularjs", pstr "Angular")
  , (pstr "angular.js", pstr "Angular")
  , (pstr "nodejs", pstr "Node.js")
  , (pstr "node.js", pstr "Node.js")
  , (pstr "expressjs", pstr "Express.js")
  , (pstr "express", pstr "Express.js")
  , (pstr "flask", pstr "Flask")
  , (pstr "django", pstr "Django")
  , (pstr "springboot", pstr "Spring Boot")
  , (pstr "spring", pstr "Spring")
  , (pstr "tensorflow", pstr "TensorFlow")
  , (pstr "pytorch", pstr "PyTorch")
  , (pstr "keras", pstr "Keras")
  , (pstr "sklearn", pstr "Scikit-learn")
  , (pstr "pandas", pstr "Pandas")
  , (pstr "numpy", pstr "NumPy")
  , (pstr "matplotlib", pstr "Matplotlib")
  , (pstr "bootstrap", pstr "Bootstrap")
  , (pstr "tailwind", pstr "Tailwind CSS")
  , (pstr "jquery", pstr "jQuery")
  , (pstr "nextjs", pstr "Next.js")
  , (pstr "nuxt", pstr "Nuxt.js")
  , (pstr "gatsby", pstr "Gatsby")
  , (pstr "aws", pstr "AWS")
  , (pstr "amazon web services", pstr "AWS")
  , (pstr "azure", pstr "Azure")
  , (pstr "microsoft azure", pstr "Azure")
  , (pstr "gcp", pstr "GCP")
  , (pstr "google cloud", pstr "GCP")
  , (pstr "google cloud platform", pstr "GCP")
  , (pstr "docker", pstr "Docker")
  , (pstr "kubernetes", pstr "Kubernetes")
  , (pstr "k8s", pstr "Kubernetes")
  , (pstr "git", pstr "Git")
  , (pstr "github", pstr "GitHub")
  , (pstr "gitlab", pstr "GitLab")
  , (pstr "jenkins", pstr "Jenkins")
  , (pstr "circleci", pstr "CircleCI")
  , (pstr "travis", pstr "Travis CI")
  , (pstr "linux", pstr "Linux")
  , (pstr "ubuntu", pstr "Linux")
  , (pstr "centos", pstr "Linux")
  , (pstr "debian", pstr "Linux")
  , (pstr "windows server", pstr "Windows")
  , (pstr "mongodb", pstr "MongoDB")
  , (pstr "postgres", pstr "PostgreSQL")
  , (pstr "mysql", pstr "MySQL")
  , (pstr "redis", pstr "Redis")
  , (pstr "elasticsearch", pstr "Elasticsearch")
  , (pstr "kafka", pstr "Kafka")
  , (pstr "rabbitmq", pstr "RabbitMQ")
  , (pstr "graphql", pstr "GraphQL")
  , (pstr "rest", pstr "REST API")
  , (pstr "restful", pstr "REST API")
  , (pstr "rest api", pstr "REST API")
  , (pstr "microservice", pstr "Microservices")
  , (pstr "ml", pstr "Machine Learning")
  , (pstr "machine learning", pstr "Machine Learning")
  , (pstr "deep learning", pstr "Deep Learning")
  , (pstr "nlp", pstr "Natural Language Processing")
  , (pstr "natural language processing", pstr "Natural Language Processing")
  , (pstr "computer vision", pstr "Computer Vision")
  , (pstr "data analytics", pstr "Data Analysis")
  , (pstr "data analysis", pstr "Data Analysis")
  , (pstr "data viz", pstr "Data Visualization")
  , (pstr "data visualization", pstr "Data Visualization")
  , (pstr "statistics", pstr "Statistics")
  , (pstr "a/b testing", pstr "A/B Testing")
  , (pstr "ab testing", pstr "A/B Testing")
  , (pstr "predictive modeling", pstr "Predictive Modeling")
  , (pstr "feature engineering", pstr "Feature Engineering")
  , (pstr "devops", pstr "DevOps")
  , (pstr "cloud", pstr "Cloud Architecture")
  , (pstr "cloud architecture", pstr "Cloud Architecture")
  , (pstr "iaas", pstr "Infrastructure as Code")
  , (pstr "infrastructure as code", pstr "Infrastructure as Code")
  , (pstr "terraform", pstr "Terraform")
  , (pstr "ansible", pstr "Ansible")
  , (pstr "cicd", pstr "CI/CD")
  , (pstr "ci/cd", pstr "CI/CD")
  , (pstr "ci cd", pstr "CI/CD")
  , (pstr "monitoring", pstr "Monitoring")
  , (pstr "logging", pstr "Logging")
  , (pstr "security", pstr "Security")
  , (pstr "container", pstr "Container Orchestration")
  , (pstr "orchestration", pstr "Container Orchestration")
  , (pstr "service mesh", pstr "Service Mesh") ]

/-- Dictionary lookup in an association list (Python `key in dict` /
`dict[key]`), first binding wins. -/
def alist.lookupP {α : Type} (table : List (PyStr × α)) (key : PyStr) :
    Option α :=
  match table with
  | [] => none
  | (k, v) :: rest => if k = key then some v else alist.lookupP rest key

/-- `config.config.SKILL_CATEGORIES`: category name → canonical skill names,
in source order. -/
def SKILL_CATEGORIES : List (PyStr × List PyStr) :=
  [ (pstr "programming_languages",
     [pstr "Python", pstr "Java", pstr "JavaScript", pstr "TypeScript", pstr "C++",
      pstr "C#", pstr "Go", pstr "Rust", pstr "Ruby", pstr "PHP", pstr "Swift",
      pstr "Kotlin", pstr "Scala", pstr "R", pstr "MATLAB", pstr "SQL", pstr "HTML",
      pstr "CSS"])
  , (pstr "frameworks_libraries",
     [pstr "React", pstr "Angular", pstr "Vue.js", pstr "Django", pstr "Flask",
      pstr "Spring", pstr "Node.js", pstr "Express.js", pstr "FastAPI",
      pstr "TensorFlow", pstr "PyTorch", pstr "Keras", pstr "Scikit-learn",
      pstr "Pandas", pstr "NumPy", pstr "Matplotlib", pstr "Bootstrap",
      pstr "Tailwind CSS", pstr "jQuery"])
  , (pstr "tools_platforms",
     [pstr "Git", pstr "Docker", pstr "Kubernetes", pstr "AWS", pstr "Azure",
      pstr "GCP", pstr "Jenkins", pstr "CI/CD", pstr "Linux", pstr "Windows",
      pstr "macOS", pstr "MongoDB", pstr "PostgreSQL", pstr "MySQL", pstr "Redis",
      pstr "Elasticsearch", pstr "RabbitMQ", pstr "Kafka", pstr "GraphQL",
      pstr "REST API", pstr "Microservices"])
  , (pstr "data_science",
     [pstr "Machine Learning", pstr "Deep Learning",
      pstr "Natural Language Processing", pstr "Computer Vision",
      pstr "Data Analysis", pstr "Data Visualization", pstr "Statistics",
      pstr "A/B Testing", pstr "Predictive Modeling", pstr "Feature Engineering",
      pstr "Model Deployment"])
  , (pstr "devops_cloud",
     [pstr "DevOps", pstr "Cloud Architecture", pstr "Infrastructure as Code",
      pstr "Terraform", pstr "Ansible", pstr "CI/CD Pipelines", pstr "Monitoring",
      pstr "Logging", pstr "Security", pstr "Container Orchestration",
      pstr "Service Mesh"])
  , (pstr "soft_skills",
     [pstr "Communication", pstr "Teamwork", pstr "Leadership",
      pstr "Problem Solving", pstr "Critical Thinking", pstr "Time Management",
      pstr "Adaptability", pstr "Creativity", pstr "Analytical Skills",
      pstr "Project Management", pstr "Collaboration", pstr "Presentation",
      pstr "Negotiation", pstr "Interpersonal Skills", pstr "Customer Service",
      pstr "Organizational Skills", pstr "Attention to Detail",
      pstr "Multitasking", pstr "Decision Making", pstr "Conflict Resolution"])
  , (pstr "education_skills",
     [pstr "Curriculum Development", pstr "Lesson Planning",
      pstr "Classroom Management", pstr "Teaching", pstr "Education Technology",
      pstr "Student Assessment", pstr "Instructional Design", pstr "Training",
      pstr "Tutoring", pstr "Academic Advising", pstr "Course Development",
      pstr "E-Learning", pstr "Special Education", pstr "Child Development",
      pstr "Pedagogy"])
  , (pstr "sales_marketing_skills",
     [pstr "Sales", pstr "Lead Generation", pstr "Client Relations",
      pstr "Negotiation", pstr "Business Development", pstr "Account Management",
      pstr "Market Research", pstr "Digital Marketing", pstr "SEO", pstr "SEM",
      pstr "Social Media Marketing", pstr "Content Marketing",
      pstr "Email Marketing", pstr "Brand Management", pstr "Public Relations",
      pstr "Advertising", pstr "CRM", pstr "Salesforce", pstr "Revenue Growth",
      pstr "Customer Acquisition", pstr "Partner Relations", pstr "Cold Calling",
      pstr "Prospecting"])
  , (pstr "retail_customer_service",
     [pstr "Customer Service", pstr "Retail", pstr "Point of Sale",
      pstr "Inventory Management", pstr "Cash Handling", pstr "Store Operations",
      pstr "Merchandising", pstr "Stock Management", pstr "Clienteling",
      pstr "Product Knowledge", pstr "Visual Merchandising",
      pstr "Order Fulfillment", pstr "Returns Processing",
      pstr "Payment Processing", pstr "Upselling", pstr "Cross-selling"])
  , (pstr "healthcare_skills",
     [pstr "Patient Care", pstr "Clinical Skills", pstr "Medical Terminology",
      pstr "Healthcare Documentation", pstr "HIPAA Compliance", pstr "Vital Signs",
      pstr "Phlebotomy", pstr "EKG", pstr "CPR Certified",
      pstr "Electronic Health Records", pstr "Patient Advocacy",
      pstr "Medical Billing", pstr "Insurance Claims", pstr "Health Education",
      pstr "Wellness Coaching"])
  , (pstr "administrative_skills",
     [pstr "Microsoft Office", pstr "Google Workspace", pstr "Data Entry",
      pstr "Record Keeping", pstr "Document Management", pstr "Calendar Management",
      pstr "Travel Coordination", pstr "Meeting Coordination",
      pstr "Office Administration", pstr "Executive Assistant",
      pstr "Administrative Support", pstr "Correspondence", pstr "Filing Systems",
      pstr "Budgeting", pstr "Expense Reporting"])
  , (pstr "finance_accounting_skills",
     [pstr "Financial Analysis", pstr "Budgeting", pstr "Forecasting",
      pstr "Financial Reporting", pstr "Bookkeeping", pstr "Accounts Payable",
      pstr "Accounts Receivable", pstr "Tax Preparation", pstr "Audit",
      pstr "Compliance", pstr "Risk Management", pstr "Investment Analysis",
      pstr "Excel", pstr "QuickBooks", pstr "SAP", pstr "Oracle Financials",
      pstr "Payroll Processing"])
  , (pstr "hr_skills",
     [pstr "Recruiting", pstr "Talent Acquisition", pstr "Employee Relations",
      pstr "Performance Management", pstr "Training and Development", pstr "HRIS",
      pstr "Benefits Administration", pstr "Onboarding", pstr "Offboarding",
      pstr "Succession Planning", pstr "Workforce Planning", pstr "HR Analytics",
      pstr "Employee Engagement", pstr "Policy Development",
      pstr "Labor Law Compliance"])
  , (pstr "project_management_skills",
     [pstr "Project Planning", pstr "Project Execution", pstr "Risk Management",
      pstr "Stakeholder Management", pstr "Resource Allocation",
      pstr "Budget Management", pstr "Schedule Management", pstr "Agile",
      pstr "Scrum", pstr "Waterfall", pstr "Kanban", pstr "JIRA",
      pstr "Confluence", pstr "Microsoft Project",
      pstr "Earned Value Management", pstr "Quality Assurance",
      pstr "Vendor Management"])
  , (pstr "operations_logistics",
     [pstr "Supply Chain Management", pstr "Logistics", pstr "Inventory Control",
      pstr "Warehouse Management", pstr "Transportation", pstr "Procurement",
      pstr "Vendor Management", pstr "Quality Control", pstr "Process Improvement",
      pstr "Lean Six Sigma", pstr "Forecasting", pstr "Demand Planning",
      pstr "Distribution", pstr "Order Management", pstr "Freight Forwarding"]) ]

/-- `NormalizedSkill` dataclass. Confidence is an exact rational. -/
structure NormalizedSkill where
  original : PyStr
  normalized : PyStr
  category : PyStr
  confidence : ℚ
  is_alias : Bool
  aliases : List PyStr
  deriving Repr, DecidableEq

/-- `SkillNormalizer._build_reverse_mapping`: the aliases recorded for a
canonical name, in table order. -/
def reverse_mapping (normalized : PyStr) : List PyStr :=
  (SKILL_ALIASES.filter fun kv => kv.2 = normalized).map fun kv => kv.1

/-- `SkillNormalizer._get_category`: first category (in table order) containing
the skill case-insensitively; the string `"unknown"` when none does. -/
def get_category (skill : PyStr) : PyStr :=
  match SKILL_CATEGORIES.find? fun cat =>
      cat.2.any fun category_skill => pyLower category_skill = pyLower skill with
  | some cat => cat.1
  | none => pstr "unknown"

/-- `SkillNormalizer._capitalize_skill`: the `special_cases` table. -/
def special_cases : List (PyStr × PyStr) :=
  [ (pstr "css", pstr "CSS")
  , (pstr "html", pstr "HTML")
  , (pstr "sql", pstr "SQL")
  , (pstr "api", pstr "API")
  , (pstr "aws", pstr "AWS")
  , (pstr "gcp", pstr "GCP")
  , (pstr "mongodb", pstr "MongoDB")
  , (pstr "graphql", pstr "GraphQL")
  , (pstr "restful", pstr "REST API")
  , (pstr "cicd", pstr "CI/CD")
  , (pstr "devops", pstr "DevOps")
  , (pstr "ml", pstr "ML")
  , (pstr "ai", pstr "AI")
  , (pstr "nlp", pstr "NLP") ]

/-- `SkillNormalizer._capitalize_skill`: special-case table lookup on the
lower-stripped token, else Python title-case of the stripped token. -/
def capitalize_skill (skill : PyStr) : PyStr :=
  let skill_lower := pyStrip (pyLower skill)
  match alist.lookupP special_cases skill_lower with
  | some v => v
  | none => pyTitle (pyStrip skill)

/-- `SkillNormalizer.normalize`.  The guard on the middle branch models
Python's truthiness test `if category:` (non-empty string). -/
def normalize (skill : PyStr) : NormalizedSkill :=
  let skill_lower := pyStrip (pyLower skill)
  match alist.lookupP SKILL_ALIASES skill_lower with
  | some normalized =>
      { original := skill
        normalized := normalized
        category := get_category normalized
        confidence := 1
        is_alias := true
        aliases := reverse_mapping normalized }
  | none =>
      let normalized := capitalize_skill skill
      let category := get_category normalized
      if category ≠ [] then
        { original := skill
          normalized := normalized
          category := category
          confidence := 95 / 100
          is_alias := false
          aliases := [] }
      else
        { original := skill
          normalized := capitalize_skill skill
          category := pstr "unknown"
          confidence := 1 / 2
          is_alias := false
          aliases := [] }

/-- `SkillNormalizer.calculate_skill_match` (the final `round(·, 2)` of the
general branch is modelled as the exact rational it rounds).  Returns
`(match_percentage, matched, missing)`. -/
def calculate_skill_match (candidate_skills required_skills : List PyStr) :
    ℚ × List PyStr × List PyStr :=
  let candidate_normalized :=
    ((candidate_skills.map fun s => pyLower (normalize s).normalized)).dedup
  let required_normalized := (required_skills.map pyLower).dedup
  let matched := required_normalized.filter fun s => candidate_normalized.contains s
  let missing := required_normalized.filter fun s => ¬ candidate_normalized.contains s
  if required_normalized = [] then (1, [], [])
  else ((matched.length : ℚ) / (required_normalized.length : ℚ), matched, missing)

/-! ## Duration parsing (`src/analyzers/experience_analyzer.py`) -/

/-- Word-boundary test used by `\b` against an adjacent character that may be
absent (start/end of string). -/
def boundaryOk : PyStr → Bool
  | [] => true
  | c :: _ => ! isWordC c

/-- Worker for the regex search `\b(19|20)\d{2}\b` in
`ExperienceAnalyzer._extract_year`: scans left to right for the first
position where a 4-digit year starting `19` or `20` sits between word
boundaries; `prevWord` records whether the preceding character is a word
character. -/
def findYearGo (prevWord : Bool) : PyStr → Option Nat
  | [] => none
  | a :: tail =>
      match tail with
      | b :: c :: d :: rest =>
          if (!prevWord && ((a = 49 && b = 57) || (a = 50 && b = 48)) &&
              isDigitC c && isDigitC d && boundaryOk rest) then
            some ((a - 48) * 1000 + (b - 48) * 100 + (c - 48) * 10 + (d - 48))
          else findYearGo (isWordC a) tail
      | _ => none

/-- `ExperienceAnalyzer._extract_year`: the first 4-digit `19xx`/`20xx` year
if one occurs, else the current calendar year when the text mentions
`present`/`current`/`now`, else `none`. -/
def extract_year (date_str : PyStr) (current_year : Nat) : Option Nat :=
  match findYearGo false date_str with
  | some y => some y
  | none =>
      if pyContains (pyLower date_str) (pstr "present") ||
         pyContains (pyLower date_str) (pstr "current") ||
         pyContains (pyLower date_str) (pstr "now") then
        some current_year
      else none

/-- The date-range arm of `ExperienceAnalyzer._parse_duration` (lines
157–167): given the two date substrings captured by the date-range regex
`date_pattern`, extract a year from each end and compute
`(end_year - start_year) * 12` floored at 0.  `none` models falling through
to the later duration patterns (year extraction failed or yielded a falsy
value). -/
def parse_duration_date_range (start_date end_date : PyStr)
    (current_year : Nat) : Option Int :=
  match extract_year start_date current_year,
        extract_year end_date current_year with
  | some start_year, some end_year =>
      if start_year ≠ 0 ∧ end_year ≠ 0 then
        some (pymaxI (((end_year : Int) - (start_year : Int)) * 12) 0)
      else none
  | _, _ => none

/-! ## Section line collection (`src/parsers/txt_parser.py`) -/

/-- The header test shared by the section scanners of `TxtParser`: one of the
section's keywords occurs in the stripped, lowercased line, the raw line
contains no colon, and the raw line is shorter than `max_len`. -/
def is_section_header (keywords : List PyStr) (max_len : Nat)
    (line : PyStr) : Bool :=
  (keywords.any fun h => pyContains (pyLower (pyStrip line)) h) &&
    !(line.contains 58) && decide (line.length < max_len)

/-- The section-collection loop of `TxtParser._extract_experiences` /
`_extract_education`: `in_sec` is the in-section flag, `acc` holds collected
lines in reverse.  A line matching the section's own headers (re)opens the
section and resets the accumulator; once inside, a line matching another
section's headers ends the scan and every other line is collected. -/
def section_scan (isHeader isOther : PyStr → Bool) (in_sec : Bool)
    (acc : List PyStr) : List PyStr → List PyStr
  | [] => acc.reverse
  | line :: rest =>
      if isHeader line then section_scan isHeader isOther true [] rest
      else if in_sec then
        if isOther line then acc.reverse
        else section_scan isHeader isOther true (line :: acc) rest
      else section_scan isHeader isOther in_sec acc rest

/-- The experience-section body collected by `TxtParser._extract_experiences`
(lines 132–153). -/
def experience_section_lines (text : PyStr) : List PyStr :=
  section_scan
    (is_section_header [pstr "experience", pstr "employment",
      pstr "work history", pstr "professional experience"] 30)
    (is_section_header [pstr "education", pstr "skills", pstr "certifications",
      pstr "projects", pstr "awards", pstr "publications"] 30)
    false [] (pySplitLines text)

/-- The education-section body collected by `TxtParser._extract_education`
(lines 262–281); note the tighter 25-character header length bound. -/
def education_section_lines (text : PyStr) : List PyStr :=
  section_scan
    (is_section_header [pstr "education", pstr "academic",
      pstr "qualifications"] 25)
    (is_section_header [pstr "experience", pstr "skills", pstr "certifications",
      pstr "projects", pstr "awards"] 25)
    false [] (pySplitLines text)

/-! ## Resume data model (`src/parsers/base_parser.py`)

Only the fields read by the quality scorer are modelled; presentation-only
fields (`achievements`, `languages`, `interests`, file metadata, ...) are
omitted since no modelled code path reads them. -/

/-- `base_parser.Experience` (scored fields). -/
structure Experience where
  role : PyStr := []
  company : PyStr := []
  duration : PyStr := []
  description : PyStr := []
  deriving Repr, DecidableEq

/-- `base_parser.Education`. -/
structure Education where
  degree : PyStr := []
  institution : PyStr := []
  year : PyStr := []
  details : PyStr := []
  deriving Repr, DecidableEq

/-- `base_parser.Certification`. -/
structure Certification where
  name : PyStr := []
  issuer : PyStr := []
  date : PyStr := []
  deriving Repr, DecidableEq

/-- `base_parser.Project` (scored fields). -/
structure Project where
  name : PyStr := []
  description : PyStr := []
  technologies : List PyStr := []
  deriving Repr, DecidableEq

/-- `base_parser.ResumeData` (the fields read by the scorer). -/
structure ResumeData where
  full_name : PyStr := []
  email : PyStr := []
  phone : PyStr := []
  linkedin : PyStr := []
  github : PyStr := []
  website : PyStr := []
  summary : PyStr := []
  technical_skills : List PyStr := []
  soft_skills : List PyStr := []
  experiences : List Experience := []
  education : List Education := []
  certifications : List Certification := []
  projects : List Project := []
  raw_text : PyStr := []
  deriving Repr, DecidableEq

/-- `skill_analyzer.SkillProfile`, restricted to the single field the quality
scorer reads (`all_skills`, the deduplicated normalized skill names). -/
structure SkillProfile where
  all_skills : List PyStr := []
  deriving Repr, DecidableEq

/-! ## Quality scorer (`src/scorer/quality_scorer.py`) -/

/-- `config.config.SCORING_WEIGHTS`. -/
def SCORING_WEIGHTS : List (PyStr × ℚ) :=
  [ (pstr "skill_relevance", 25 / 100)
  , (pstr "experience_clarity", 25 / 100)
  , (pstr "keyword_optimization", 20 / 100)
  , (pstr "structure_readability", 20 / 100)
  , (pstr "completeness", 10 / 100) ]

/-- Weight lookup in `SCORING_WEIGHTS`. -/
def weightOf (key : PyStr) : ℚ :=
  match SCORING_WEIGHTS.find? fun kv => kv.1 = key with
  | some kv => kv.2
  | none => 0

/-- `QualityScorer.ATS_KEYWORDS` (the scorer's own keyword table). -/
def ATS_KEYWORDS_scorer : List (PyStr × List PyStr) :=
  [ (pstr "technology",
     [pstr "agile", pstr "scrum", pstr "ci/cd", pstr "devops",
      pstr "microservices", pstr "api", pstr "cloud", pstr "python",
      pstr "java", pstr "javascript", pstr "sql", pstr "git", pstr "docker",
      pstr "kubernetes"])
  , (pstr "general",
     [pstr "leadership", pstr "teamwork", pstr "communication",
      pstr "problem-solving", pstr "analytical", pstr "project management",
      pstr "stakeholder", pstr "strategy", pstr "innovation"])
  , (pstr "soft_skills",
     [pstr "collaboration", pstr "adaptability", pstr "critical thinking",
      pstr "time management", pstr "attention to detail", pstr "organization",
      pstr "multitasking"]) ]

/-- `QualityScorer._score_skill_relevance`. -/
def score_skill_relevance (skill_profile : Option SkillProfile) : ℚ :=
  match skill_profile with
  | none => 50
  | some profile =>
      let total_skills := profile.all_skills.length
      if total_skills < 5 then pymin 40 ((total_skills : ℚ) * 8)
      else if total_skills > 20 then pymin 95 (70 + ((total_skills : ℚ) - 20) * 1)
      else 70 + ((total_skills : ℚ) - 5) * (25 / 10)

/-- `QualityScorer._score_experience_clarity`.  (The local `score`
accumulator incremented for durations/descriptions in the source is dead:
the return value uses only `base_score + clarity_bonus`.) -/
def score_experience_clarity (r : ResumeData) : ℚ :=
  if r.experiences.isEmpty then 20
  else
    let clear_entries :=
      r.experiences.countP fun e => !e.role.isEmpty && !e.company.isEmpty
    let base_score : ℚ := pymin 40 ((r.experiences.length : ℚ) * 10)
    let clarity_bonus : ℚ :=
      ((clear_entries : ℚ) / (r.experiences.length : ℚ)) * 30
    pymin 100 (base_score + clarity_bonus)

/-- `QualityScorer._score_keyword_optimization`. -/
def score_keyword_optimization (r : ResumeData) : ℚ :=
  let text := pyLower r.raw_text
  let total_keywords : Nat :=
    (ATS_KEYWORDS_scorer.map fun cat => cat.2.length).sum
  let found_keywords : Nat := (ATS_KEYWORDS_scorer.map fun cat =>
      cat.2.countP fun keyword => pyContains text (pyLower keyword)).sum
  if total_keywords = 0 then 50
  else
    let keyword_score : ℚ := ((found_keywords : ℚ) / (total_keywords : ℚ)) * 100
    let skill_count := r.technical_skills.length + r.soft_skills.length
    if skill_count > 10 then pymin 100 (keyword_score + 10) else keyword_score

/-- `QualityScorer._score_structure_readability`. -/
def score_structure_readability (r : ResumeData) : ℚ :=
  let sections_present : Nat :=
    (if !r.summary.isEmpty then 1 else 0) +
    (if !r.technical_skills.isEmpty || !r.soft_skills.isEmpty then 1 else 0) +
    (if !r.experiences.isEmpty then 1 else 0) +
    (if !r.education.isEmpty then 1 else 0)
  let score : ℚ := 50 + (sections_present : ℚ) * 10
  let score := score + (if !r.email.isEmpty then 5 else 0)
  let score := score + (if !r.phone.isEmpty then 5 else 0)
  let score := score + (if !r.linkedin.isEmpty || !r.github.isEmpty then 5 else 0)
  let score := score +
    (if !r.projects.isEmpty then pymin 10 ((r.projects.length : ℚ) * 5) else 0)
  pymin 100 score

/-- `QualityScorer._score_completeness` (the source's per-section `if/elif`
walk over `REQUIRED_SECTIONS` is written out additively). -/
def score_completeness (r : ResumeData) : ℚ :=
  let score : ℚ :=
    (if !r.summary.isEmpty then 15 else 0) +
    (if !r.technical_skills.isEmpty || !r.soft_skills.isEmpty then 15 else 0) +
    (if !r.experiences.isEmpty then 20 else 0) +
    (if !r.education.isEmpty then 15 else 0) +
    (if !r.certifications.isEmpty then 10 else 0) +
    (if !r.projects.isEmpty then 10 else 0) +
    (if !r.linkedin.isEmpty || !r.github.isEmpty || !r.website.isEmpty
     then 5 else 0)
  pymin 100 score

/-- `QualityScorer._score_ats_compatibility`.  (The `table`/`|` check only
appends to the `issues` list and never changes the score.) -/
def score_ats_compatibility (r : ResumeData) : ℚ :=
  let text := pyLower r.raw_text
  let headers := [pstr "experience", pstr "education", pstr "skills",
    pstr "summary"]
  let found_headers := headers.countP fun h => pyContains text h
  let score : ℚ := 70 + (found_headers : ℚ) * 3
  let score := score + (if !r.email.isEmpty && r.email.contains 64 then 5 else 0)
  let score := score + (if !r.phone.isEmpty then 5 else 0)
  let action_verbs := [pstr "led", pstr "managed", pstr "developed",
    pstr "created", pstr "implemented", pstr "designed", pstr "analyzed",
    pstr "improved", pstr "increased"]
  let action_count := action_verbs.countP fun verb => pyContains text verb
  let score := score + pymin 10 ((action_count : ℚ) * 2)
  pymax 0 (pymin 100 score)

/-- `quality_scorer.ResumeScore` (numeric fields; the strengths / weaknesses /
tips string lists are presentational and not modelled). -/
structure ResumeScore where
  overall_score : ℚ
  skill_relevance_score : ℚ
  experience_clarity_score : ℚ
  keyword_optimization_score : ℚ
  structure_readability_score : ℚ
  completeness_score : ℚ
  ats_compatibility_score : ℚ
  deriving Repr, DecidableEq

/-- `QualityScorer.score_resume`: six sub-scores, overall = weighted sum of
the first five (the ATS-compatibility score is computed and reported but not
weighted in). -/
def score_resume (r : ResumeData) (skill_profile : Option SkillProfile) :
    ResumeScore :=
  let skill_score := score_skill_relevance skill_profile
  let experience_score := score_experience_clarity r
  let keyword_score := score_keyword_optimization r
  let structure_score := score_structure_readability r
  let completeness_score := score_completeness r
  let ats_score := score_ats_compatibility r
  let overall :=
    skill_score * weightOf (pstr "skill_relevance") +
    experience_score * weightOf (pstr "experience_clarity") +
    keyword_score * weightOf (pstr "keyword_optimization") +
    structure_score * weightOf (pstr "structure_readability") +
    completeness_score * weightOf (pstr "completeness")
  { overall_score := overall
    skill_relevance_score := skill_score
    experience_clarity_score := experience_score
    keyword_optimization_score := keyword_score
    structure_readability_score := structure_score
    completeness_score := completeness_score
    ats_compatibility_score := ats_score }

/-- `ResumeScore._get_grade` as a function of the overall score. -/
def get_grade (overall_score : ℚ) : PyStr :=
  if overall_score ≥ 90 then pstr "A+"
  else if overall_score ≥ 80 then pstr "A"
  else if overall_score ≥ 70 then pstr "B+"
  else if overall_score ≥ 60 then pstr "B"
  else if overall_score ≥ 50 then pstr "C+"
  else if overall_score ≥ 40 then pstr "C"
  else pstr "D"

/-- Rank of a letter grade in the quality order `D < C < C+ < B < B+ < A < A+`
(verification helper for stating grade monotonicity). -/
def gradeRank (g : PyStr) : Nat :=
  if g = pstr "A+" then 6
  else if g = pstr "A" then 5
  else if g = pstr "B+" then 4
  else if g = pstr "B" then 3
  else if g = pstr "C+" then 2
  else if g = pstr "C" then 1
  else 0

/-! ## Job recommender (`src/analyzers/job_recommender.py`) -/

/-- One entry of `config.config.JOB_ROLES` (the `keywords` field is read by no
modelled code path and is omitted). -/
structure JobRole where
  title : PyStr
  required_skills : List PyStr
  experience_level : PyStr
  deriving Repr, DecidableEq

/-- `config.config.JOB_ROLES`, in source order. -/
def JOB_ROLES : List (PyStr × JobRole) :=
  [ (pstr "software_engineer",
     ⟨pstr "Software Engineer",
      [pstr "Python", pstr "Java", pstr "JavaScript", pstr "SQL", pstr "Git"],
      pstr "mid"⟩)
  , (pstr "data_scientist",
     ⟨pstr "Data Scientist",
      [pstr "Python", pstr "Machine Learning", pstr "Statistics", pstr "SQL",
       pstr "Data Analysis"], pstr "mid"⟩)
  , (pstr "frontend_developer",
     ⟨pstr "Frontend Developer",
      [pstr "JavaScript", pstr "HTML", pstr "CSS", pstr "React",
       pstr "Vue.js"], pstr "mid"⟩)
  , (pstr "backend_developer",
     ⟨pstr "Backend Developer",
      [pstr "Python", pstr "Java", pstr "Node.js", pstr "SQL",
       pstr "REST API"], pstr "mid"⟩)
  , (pstr "full_stack_developer",
     ⟨pstr "Full Stack Developer",
      [pstr "JavaScript", pstr "Python", pstr "React", pstr "Node.js",
       pstr "SQL"], pstr "senior"⟩)
  , (pstr "devops_engineer",
     ⟨pstr "DevOps Engineer",
      [pstr "Docker", pstr "Kubernetes", pstr "CI/CD", pstr "AWS",
       pstr "Linux"], pstr "senior"⟩)
  , (pstr "machine_learning_engineer",
     ⟨pstr "Machine Learning Engineer",
      [pstr "Python", pstr "TensorFlow", pstr "PyTorch",
       pstr "Machine Learning", pstr "Deep Learning"], pstr "senior"⟩)
  , (pstr "project_manager",
     ⟨pstr "Project Manager",
      [pstr "Project Planning", pstr "Risk Management",
       pstr "Stakeholder Management", pstr "Agile", pstr "Scrum"],
      pstr "senior"⟩)
  , (pstr "product_manager",
     ⟨pstr "Product Manager",
      [pstr "Product Management", pstr "Communication",
       pstr "Analytical Skills", pstr "Strategy"], pstr "senior"⟩)
  , (pstr "teacher",
     ⟨pstr "Teacher / Educator",
      [pstr "Curriculum Development", pstr "Lesson Planning",
       pstr "Classroom Management", pstr "Teaching"], pstr "mid"⟩)
  , (pstr "sales_representative",
     ⟨pstr "Sales Representative",
      [pstr "Sales", pstr "Lead Generation", pstr "Client Relations",
       pstr "Negotiation", pstr "Communication"], pstr "junior"⟩)
  , (pstr "account_manager",
     ⟨pstr "Account Manager",
      [pstr "Account Management", pstr "Client Relations",
       pstr "Communication", pstr "Negotiation"], pstr "mid"⟩)
  , (pstr "retail_associate",
     ⟨pstr "Retail Associate",
      [pstr "Customer Service", pstr "Retail", pstr "Sales",
       pstr "Point of Sale"], pstr "junior"⟩)
  , (pstr "customer_service_rep",
     ⟨pstr "Customer Service Representative",
      [pstr "Customer Service", pstr "Communication", pstr "Problem Solving",
       pstr "Interpersonal Skills"], pstr "junior"⟩)
  , (pstr "nurse",
     ⟨pstr "Nurse / Healthcare Professional",
      [pstr "Patient Care", pstr "Clinical Skills", pstr "Medical Terminology",
       pstr "Healthcare Documentation"], pstr "mid"⟩)
  , (pstr "administrative_assistant",
     ⟨pstr "Administrative Assistant",
      [pstr "Microsoft Office", pstr "Data Entry", pstr "Calendar Management",
       pstr "Communication"], pstr "junior"⟩)
  , (pstr "accountant",
     ⟨pstr "Accountant",
      [pstr "Financial Analysis", pstr "Bookkeeping", pstr "Excel",
       pstr "Financial Reporting"], pstr "mid"⟩)
  , (pstr "hr_specialist",
     ⟨pstr "HR Specialist",
      [pstr "Recruiting", pstr "Employee Relations",
       pstr "Training and Development", pstr "HRIS"], pstr "mid"⟩)
  , (pstr "operations_manager",
     ⟨pstr "Operations Manager",
      [pstr "Operations Management", pstr "Process Improvement",
       pstr "Team Leadership", pstr "Logistics"], pstr "senior"⟩)
  , (pstr "marketing_specialist",
     ⟨pstr "Marketing Specialist",
      [pstr "Digital Marketing", pstr "Social Media Marketing",
       pstr "Content Marketing", pstr "Analytics"], pstr "mid"⟩)
  , (pstr "business_analyst",
     ⟨pstr "Business Analyst",
      [pstr "Analytical Skills", pstr "Data Analysis",
       pstr "Requirements Gathering", pstr "Communication"], pstr "mid"⟩)
  , (pstr "data_analyst",
     ⟨pstr "Data Analyst",
      [pstr "Python", pstr "SQL", pstr "Data Analysis", pstr "Excel",
       pstr "Data Visualization"], pstr "junior"⟩) ]

/-- `JobRecommender.CRITICAL_SKILLS`, in source order. -/
def CRITICAL_SKILLS : List (PyStr × List PyStr) :=
  [ (pstr "software_engineer",
     [pstr "Python", pstr "Java", pstr "SQL", pstr "Git"])
  , (pstr "data_scientist",
     [pstr "Python", pstr "Machine Learning", pstr "SQL", pstr "Statistics"])
  , (pstr "frontend_developer",
     [pstr "JavaScript", pstr "HTML", pstr "CSS", pstr "React"])
  , (pstr "backend_developer",
     [pstr "Python", pstr "Java", pstr "SQL", pstr "REST API"])
  , (pstr "full_stack_developer",
     [pstr "JavaScript", pstr "Python", pstr "React", pstr "Node.js"])
  , (pstr "devops_engineer",
     [pstr "Docker", pstr "Kubernetes", pstr "CI/CD", pstr "AWS"])
  , (pstr "machine_learning_engineer",
     [pstr "Python", pstr "TensorFlow", pstr "PyTorch",
      pstr "Machine Learning"])
  , (pstr "product_manager",
     [pstr "Communication", pstr "Strategy", pstr "Analytics"])
  , (pstr "data_analyst",
     [pstr "Python", pstr "SQL", pstr "Excel", pstr "Tableau"])
  , (pstr "cloud_architect",
     [pstr "AWS", pstr "Azure", pstr "Docker", pstr "Kubernetes"])
  , (pstr "project_manager",
     [pstr "Project Planning", pstr "Risk Management",
      pstr "Stakeholder Management", pstr "Agile"])
  , (pstr "teacher",
     [pstr "Curriculum Development", pstr "Lesson Planning",
      pstr "Classroom Management", pstr "Teaching"])
  , (pstr "sales_representative",
     [pstr "Sales", pstr "Lead Generation", pstr "Communication",
      pstr "Negotiation"])
  , (pstr "account_manager",
     [pstr "Account Management", pstr "Client Relations", pstr "Communication",
      pstr "Negotiation"])
  , (pstr "retail_associate",
     [pstr "Customer Service", pstr "Retail", pstr "Sales",
      pstr "Point of Sale"])
  , (pstr "customer_service_rep",
     [pstr "Customer Service", pstr "Communication", pstr "Problem Solving",
      pstr "Interpersonal Skills"])
  , (pstr "nurse",
     [pstr "Patient Care", pstr "Clinical Skills", pstr "Medical Terminology",
      pstr "Healthcare Documentation"])
  , (pstr "administrative_assistant",
     [pstr "Microsoft Office", pstr "Data Entry", pstr "Calendar Management",
      pstr "Communication"])
  , (pstr "accountant",
     [pstr "Financial Analysis", pstr "Bookkeeping", pstr "Excel",
      pstr "Financial Reporting"])
  , (pstr "hr_specialist",
     [pstr "Recruiting", pstr "Employee Relations",
      pstr "Training and Development", pstr "Communication"])
  , (pstr "operations_manager",
     [pstr "Operations Management", pstr "Process Improvement",
      pstr "Team Leadership", pstr "Logistics"])
  , (pstr "marketing_specialist",
     [pstr "Digital Marketing", pstr "Social Media Marketing",
      pstr "Content Marketing", pstr "Analytics"])
  , (pstr "business_analyst",
     [pstr "Analytical Skills", pstr "Data Analysis",
      pstr "Requirements Gathering", pstr "Communication"]) ]

/-- One entry of `JobRecommender.JOB_MARKET_DATA`. -/
structure MarketData where
  demand : PyStr
  growth : PyStr
  avg_salary : PyStr
  deriving Repr, DecidableEq

/-- `JobRecommender.JOB_MARKET_DATA`, in source order. -/
def JOB_MARKET_DATA : List (PyStr × MarketData) :=
  [ (pstr "software_engineer", ⟨pstr "high", pstr "stable", pstr "$100k-$150k"⟩)
  , (pstr "data_scientist", ⟨pstr "very_high", pstr "growing", pstr "$120k-$160k"⟩)
  , (pstr "frontend_developer", ⟨pstr "high", pstr "stable", pstr "$90k-$130k"⟩)
  , (pstr "backend_developer", ⟨pstr "high", pstr "stable", pstr "$100k-$140k"⟩)
  , (pstr "full_stack_developer", ⟨pstr "very_high", pstr "growing", pstr "$110k-$150k"⟩)
  , (pstr "devops_engineer", ⟨pstr "high", pstr "growing", pstr "$120k-$160k"⟩)
  , (pstr "machine_learning_engineer", ⟨pstr "very_high", pstr "growing", pstr "$140k-$180k"⟩)
  , (pstr "product_manager", ⟨pstr "high", pstr "stable", pstr "$120k-$170k"⟩)
  , (pstr "data_analyst", ⟨pstr "high", pstr "stable", pstr "$70k-$100k"⟩)
  , (pstr "cloud_architect", ⟨pstr "high", pstr "growing", pstr "$150k-$200k"⟩)
  , (pstr "project_manager", ⟨pstr "very_high", pstr "stable", pstr "$90k-$140k"⟩)
  , (pstr "teacher", ⟨pstr "medium", pstr "stable", pstr "$45k-$75k"⟩)
  , (pstr "sales_representative", ⟨pstr "high", pstr "stable", pstr "$50k-$80k"⟩)
  , (pstr "account_manager", ⟨pstr "high", pstr "stable", pstr "$70k-$110k"⟩)
  , (pstr "retail_associate", ⟨pstr "high", pstr "stable", pstr "$25k-$40k"⟩)
  , (pstr "customer_service_rep", ⟨pstr "high", pstr "stable", pstr "$30k-$50k"⟩)
  , (pstr "nurse", ⟨pstr "very_high", pstr "growing", pstr "$70k-$120k"⟩)
  , (pstr "administrative_assistant", ⟨pstr "medium", pstr "stable", pstr "$35k-$55k"⟩)
  , (pstr "accountant", ⟨pstr "high", pstr "stable", pstr "$60k-$100k"⟩)
  , (pstr "hr_specialist", ⟨pstr "high", pstr "stable", pstr "$55k-$90k"⟩)
  , (pstr "operations_manager", ⟨pstr "high", pstr "stable", pstr "$80k-$130k"⟩)
  , (pstr "marketing_specialist", ⟨pstr "high", pstr "growing", pstr "$55k-$95k"⟩)
  , (pstr "business_analyst", ⟨pstr "high", pstr "stable", pstr "$75k-$115k"⟩) ]

/-- `JobRecommender._calculate_related_skill_boost`'s `related_mapping`. -/
def related_mapping : List (PyStr × List PyStr) :=
  [ (pstr "python",
     [pstr "django", pstr "flask", pstr "fastapi", pstr "pandas", pstr "numpy"])
  , (pstr "java", [pstr "spring", pstr "kotlin", pstr "scala"])
  , (pstr "javascript",
     [pstr "typescript", pstr "react", pstr "vue", pstr "node"])
  , (pstr "sql", [pstr "postgresql", pstr "mysql", pstr "mongodb"])
  , (pstr "aws", [pstr "azure", pstr "gcp", pstr "docker"])
  , (pstr "machine learning",
     [pstr "deep learning", pstr "nlp", pstr "tensorflow"])
  , (pstr "react", [pstr "redux", pstr "next.js", pstr "gatsby"])
  , (pstr "docker", [pstr "kubernetes", pstr "terraform", pstr "jenkins"]) ]

/-- `JobRecommender._calculate_related_skill_boost`: `0.1` per required skill
with a related skill present in the candidate set, capped at `0.3`. -/
def calculate_related_skill_boost (required candidate_skills : List PyStr) :
    ℚ :=
  let hits := required.countP fun req_skill =>
    match alist.lookupP related_mapping (pyLower req_skill) with
    | some related => related.any fun s => decide (s ∈ candidate_skills)
    | none => false
  pymin ((hits : ℚ) * (1 / 10)) (3 / 10)

/-- The match data returned by `JobRecommender._calculate_job_match`.  The
source's final `round(skill_match, 2)` (a float presentation step) is not
modelled: `skill_match_percentage` is the exact adjusted value. -/
structure MatchResult where
  skill_match_percentage : ℚ
  matched_skills : List PyStr
  missing_skills : List PyStr
  critical_matched : Nat
  critical_missing : Nat
  deriving Repr, DecidableEq

/-- `JobRecommender._calculate_job_match`.  The critical-skill list is passed
as an argument; call sites supply `CRITICAL_SKILLS.get(job_id, [])` exactly as
the source does. -/
def calculate_job_match (required_skills_raw critical_skills_raw
    candidate_skills_lower : List PyStr) : MatchResult :=
  let required_skills := required_skills_raw.map pyLower
  let critical_skills := critical_skills_raw.map pyLower
  let requiredSet := required_skills.dedup
  let matched := requiredSet.filter fun s => decide (s ∈ candidate_skills_lower)
  let missing := requiredSet.filter fun s => decide (s ∉ candidate_skills_lower)
  let skill_match : ℚ :=
    if required_skills.isEmpty then 0
    else (matched.length : ℚ) / (required_skills.length : ℚ)
  let criticalSet := critical_skills.dedup
  let critical_matched := (criticalSet.filter fun s => decide (s ∈ matched)).length
  let critical_missing := (criticalSet.filter fun s => decide (s ∈ missing)).length
  let skill_match :=
    if critical_skills.isEmpty then skill_match
    else
      let critical_score : ℚ :=
        ((critical_matched : ℚ) - (critical_missing : ℚ) * (1 / 2)) /
          (critical_skills.length : ℚ)
      pymin 1 (skill_match + critical_score * (3 / 10))
  let related_boost :=
    calculate_related_skill_boost required_skills candidate_skills_lower
  let skill_match := pymin 1 (skill_match + related_boost * (2 / 10))
  { skill_match_percentage := skill_match
    matched_skills := matched
    missing_skills := missing
    critical_matched := critical_matched
    critical_missing := critical_missing }

/-- `job_recommender.JobRecommendation` (the `why_fits` strings and the
`required_skills_vs_candidate` echo of the match data are presentational and
not modelled). -/
structure JobRecommendation where
  job_id : PyStr
  title : PyStr
  match_score : ℚ
  missing_critical_skills : List PyStr
  skill_match_percentage : ℚ
  growth_potential : PyStr
  demand_level : PyStr
  deriving Repr, DecidableEq

/-- `JobRecommender._create_recommendation`. -/
def create_recommendation (job_id : PyStr) (job_data : JobRole)
    (m : MatchResult) : JobRecommendation :=
  let market := (alist.lookupP JOB_MARKET_DATA job_id).getD
    ⟨pstr "medium", pstr "stable", []⟩
  let critical := (alist.lookupP CRITICAL_SKILLS job_id).getD []
  { job_id := job_id
    title := job_data.title
    match_score := m.skill_match_percentage
    missing_critical_skills := m.missing_skills.filter fun s =>
      decide (pyLower s ∈ critical.map pyLower)
    skill_match_percentage := m.skill_match_percentage * 100
    growth_potential := market.growth
    demand_level := market.demand }

/-- `JobRecommender.recommend_jobs`: match every role in `JOB_ROLES`, keep
those with match at least `0.2`, sort descending by match score, return the
first `top_n`.  (The experience profile is only used for the presentational
`why_fits` strings and does not influence scoring, filtering or order.) -/
def recommend_jobs (all_skills : List PyStr) (top_n : Nat := 10) :
    List JobRecommendation :=
  let candidate_skills_lower := (all_skills.map pyLower).dedup
  let recommendations := JOB_ROLES.filterMap fun entry =>
    let m := calculate_job_match entry.2.required_skills
      ((alist.lookupP CRITICAL_SKILLS entry.1).getD []) candidate_skills_lower
    if (2 / 10 : ℚ) ≤ m.skill_match_percentage then
      some (create_recommendation entry.1 entry.2 m)
    else none
  (recommendations.mergeSort fun a b =>
    decide (b.match_score ≤ a.match_score)).take top_n

/-- `JobRecommender._estimate_time_to_ready`. -/
def estimate_time_to_ready (missing_skills critical_missing : List PyStr) :
    PyStr :=
  if missing_skills.isEmpty then pstr "Ready now"
  else
    let total_weeks : Int := (critical_missing.length : Int) * 3 +
      ((missing_skills.length : Int) - (critical_missing.length : Int)) * 2
    if total_weeks ≤ 2 then pstr "1-2 weeks"
    else if total_weeks ≤ 6 then pstr "1-2 months"
    else if total_weeks ≤ 12 then pstr "2-3 months"
    else pstr "3+ months"

/-- The structured result of `JobRecommender.get_skill_gap_analysis` (the
`learning_resources` catalog lookup is presentational and not modelled; the
`round(·, 2)` inside `match_percentage` is modelled as the exact value). -/
structure GapAnalysis where
  target_role : PyStr
  match_percentage : ℚ
  matched_skills : List PyStr
  critical_missing_skills : List PyStr
  important_missing_skills : List PyStr
  time_to_job_ready : PyStr
  deriving Repr, DecidableEq

/-- `JobRecommender.get_skill_gap_analysis`: an unknown role id yields the
explicit error string `"Unknown job: <id>"` (an `{"error": ...}` dict in the
source), never an exception. -/
def get_skill_gap_analysis (all_skills : List PyStr) (target_job_id : PyStr) :
    Except PyStr GapAnalysis :=
  match alist.lookupP JOB_ROLES target_job_id with
  | none => .error (pstr "Unknown job: " ++ target_job_id)
  | some job_data =>
      let required_skills := job_data.required_skills.map pyLower
      let candidate_skills_lower := (all_skills.map pyLower).dedup
      let requiredSet := required_skills.dedup
      let matched := requiredSet.filter fun s =>
        decide (s ∈ candidate_skills_lower)
      let missing := requiredSet.filter fun s =>
        decide (s ∉ candidate_skills_lower)
      let critical := (alist.lookupP CRITICAL_SKILLS target_job_id).getD []
      let critical_missing := missing.filter fun s =>
        decide (pyLower s ∈ critical.map pyLower)
      let important_missing := missing.filter fun s =>
        decide (s ∉ critical_missing)
      .ok { target_role := job_data.title
            match_percentage :=
              ((matched.length : ℚ) / (required_skills.length : ℚ)) * 100
            matched_skills := matched
            critical_missing_skills := critical_missing
            important_missing_skills := important_missing
            time_to_job_ready := estimate_time_to_ready missing critical_missing }

/-- One step of a career roadmap (the `actions` strings are presentational
and not modelled). -/
structure RoadmapStep where
  phase : PyStr
  timeline : PyStr
  outcome : PyStr
  deriving Repr, DecidableEq

/-- The structured result of `JobRecommender.get_career_roadmap`. -/
structure CareerRoadmap where
  current_level : PyStr
  target_role : PyStr
  target_level : PyStr
  steps : List RoadmapStep
  deriving Repr, DecidableEq

/-- `JobRecommender.get_career_roadmap`: an unknown role id yields the
explicit error string `"Unknown job target"` (no interpolation in the
source), never an exception. -/
def get_career_roadmap (all_skills : List PyStr) (current_level : PyStr)
    (target_job_id : PyStr) : Except PyStr CareerRoadmap :=
  match alist.lookupP JOB_ROLES target_job_id with
  | none => .error (pstr "Unknown job target")
  | some job_data =>
      let gap := get_skill_gap_analysis all_skills target_job_id
      let priority_steps := match gap with
        | .ok g =>
            if g.critical_missing_skills.isEmpty then []
            else [({ phase := pstr "Immediate Priority",
                     timeline := pstr "1-2 months",
                     outcome := pstr "Core skill gaps filled" } : RoadmapStep)]
        | .error _ => []
      .ok { current_level := current_level
            target_role := job_data.title
            target_level := job_data.experience_level
            steps := priority_steps ++
              [{ phase := pstr "Portfolio Building",
                 timeline := pstr "1-2 months",
                 outcome := pstr "Demonstrable experience" },
               { phase := pstr "Interview Prep",
                 timeline := pstr "2-4 weeks",
                 outcome := pstr "Interview-ready" }] }

/-! ## Helper lemmas -/

/-- `_get_category` never returns the empty string: it returns a category
name from the (all non-empty) table keys or the literal `"unknown"`. -/
lemma get_category_ne_nil (skill : PyStr) : get_category skill ≠ [] := by
  unfold get_category
  split
  · next cat hfind =>
      have hmem := List.mem_of_find?_eq_some hfind
      have hall : ∀ c ∈ SKILL_CATEGORIES, c.1 ≠ ([] : PyStr) := by decide
      exact hall cat hmem
  · decide

lemma isUpperC_iff {c : Nat} : isUpperC c = true ↔ 65 ≤ c ∧ c ≤ 90 := by
  simp [isUpperC]

lemma isLowerC_iff {c : Nat} : isLowerC c = true ↔ 97 ≤ c ∧ c ≤ 122 := by
  simp [isLowerC]

lemma isAlphaC_iff {c : Nat} :
    isAlphaC c = true ↔ (65 ≤ c ∧ c ≤ 90) ∨ (97 ≤ c ∧ c ≤ 122) := by
  simp [isAlphaC, isUpperC, isLowerC]

lemma isSpaceC_iff {c : Nat} :
    isSpaceC c = true ↔
      c = 32 ∨ c = 9 ∨ c = 10 ∨ c = 13 ∨ c = 11 ∨ c = 12 := by
  simp only [isSpaceC, Bool.or_eq_true, decide_eq_true_eq]
  tauto

lemma isAlphaC_toLowerC (c : Nat) : isAlphaC (toLowerC c) = isAlphaC c := by
  refine Bool.eq_iff_iff.mpr ?_
  unfold toLowerC
  split_ifs with h
  · rw [isUpperC_iff] at h
    simp only [isAlphaC_iff]
    omega
  · exact Iff.rfl

lemma isAlphaC_toUpperC (c : Nat) : isAlphaC (toUpperC c) = isAlphaC c := by
  refine Bool.eq_iff_iff.mpr ?_
  unfold toUpperC
  split_ifs with h
  · rw [isLowerC_iff] at h
    simp only [isAlphaC_iff]
    omega
  · exact Iff.rfl

lemma toLowerC_toLowerC (c : Nat) : toLowerC (toLowerC c) = toLowerC c := by
  unfold toLowerC
  split_ifs with h1 h2 <;>
    simp only [isUpperC_iff] at * <;> omega

lemma toLowerC_toUpperC (c : Nat) : toLowerC (toUpperC c) = toLowerC c := by
  unfold toLowerC toUpperC
  split_ifs <;>
    simp only [isUpperC_iff, isLowerC_iff] at * <;> omega

lemma toUpperC_toUpperC (c : Nat) : toUpperC (toUpperC c) = toUpperC c := by
  unfold toUpperC
  split_ifs <;>
    simp only [isLowerC_iff] at * <;> omega

lemma toUpperC_toLowerC (c : Nat) : toUpperC (toLowerC c) = toUpperC c := by
  unfold toLowerC toUpperC
  split_ifs <;>
    simp only [isUpperC_iff, isLowerC_iff] at * <;> omega

lemma isSpaceC_toLowerC (c : Nat) : isSpaceC (toLowerC c) = isSpaceC c := by
  refine Bool.eq_iff_iff.mpr ?_
  unfold toLowerC
  split_ifs with h
  · rw [isUpperC_iff] at h
    simp only [isSpaceC_iff]
    omega
  · exact Iff.rfl

lemma isSpaceC_toUpperC (c : Nat) : isSpaceC (toUpperC c) = isSpaceC c := by
  refine Bool.eq_iff_iff.mpr ?_
  unfold toUpperC
  split_ifs with h
  · rw [isLowerC_iff] at h
    simp only [isSpaceC_iff]
    omega
  · exact Iff.rfl

lemma isAlphaC_titleChar (p : Bool) (c : Nat) :
    isAlphaC (titleChar p c) = isAlphaC c := by
  by_cases h : isAlphaC c = true
  · cases p
    · simp [titleChar, h, isAlphaC_toUpperC]
    · simp [titleChar, h, isAlphaC_toLowerC]
  · simp [titleChar, h]

lemma isSpaceC_titleChar (p : Bool) (c : Nat) :
    isSpaceC (titleChar p c) = isSpaceC c := by
  by_cases h : isAlphaC c = true
  · cases p
    · simp [titleChar, h, isSpaceC_toUpperC]
    · simp [titleChar, h, isSpaceC_toLowerC]
  · simp [titleChar, h]

lemma titleChar_titleChar (p : Bool) (c : Nat) :
    titleChar p (titleChar p c) = titleChar p c := by
  by_cases h : isAlphaC c = true
  · cases p
    · simp [titleChar, h, isAlphaC_toUpperC, toUpperC_toUpperC]
    · simp [titleChar, h, isAlphaC_toLowerC, toLowerC_toLowerC]
  · simp [titleChar, h]

lemma toLowerC_titleChar (p : Bool) (c : Nat) :
    toLowerC (titleChar p c) = toLowerC c := by
  by_cases h : isAlphaC c = true
  · cases p
    · simp [titleChar, h, toLowerC_toUpperC]
    · simp [titleChar, h, toLowerC_toLowerC]
  · simp [titleChar, h]

lemma titleGo_titleGo (l : PyStr) :
    ∀ p, titleGo p (titleGo p l) = titleGo p l := by
  induction l with
  | nil => intro p; rfl
  | cons c cs ih =>
      intro p
      simp only [titleGo, titleChar_titleChar, isAlphaC_titleChar, ih]

lemma pyLower_titleGo (l : PyStr) : ∀ p, pyLower (titleGo p l) = pyLower l := by
  induction l with
  | nil => intro p; rfl
  | cons c cs ih =>
      intro p
      simp only [titleGo, pyLower, List.map_cons, toLowerC_titleChar]
      exact congrArg _ (ih _)

lemma map_isSpaceC_titleGo (l : PyStr) :
    ∀ p, (titleGo p l).map isSpaceC = l.map isSpaceC := by
  induction l with
  | nil => intro p; rfl
  | cons c cs ih =>
      intro p
      simp only [titleGo, List.map_cons, isSpaceC_titleChar]
      exact congrArg _ (ih _)

lemma dropWhile_dropWhile {α : Type} (p : α → Bool) (l : List α) :
    (l.dropWhile p).dropWhile p = l.dropWhile p := by
  induction l with
  | nil => rfl
  | cons c t ih =>
      by_cases h : p c = true
      · rw [List.dropWhile_cons, if_pos h, ih]
      · rw [List.dropWhile_cons, if_neg h, List.dropWhile_cons, if_neg h]

lemma head_dropWhile_false {α : Type} {p : α → Bool} {l t : List α} {c : α}
    (h : l.dropWhile p = c :: t) : p c = false := by
  induction l with
  | nil => simp [List.dropWhile] at h
  | cons a l' ih =>
      by_cases hp : p a = true
      · rw [List.dropWhile_cons, if_pos hp] at h
        exact ih h
      · rw [List.dropWhile_cons, if_neg hp] at h
        obtain ⟨rfl, -⟩ := List.cons.inj h
        simpa using hp

lemma dropWhile_cons_eq_self {α : Type} {p : α → Bool} {c : α} {t : List α}
    (h : (c :: t).dropWhile p = c :: t) : p c = false :=
  head_dropWhile_false h

/-- A string equal to its own strip has no leading or trailing whitespace. -/
lemma strip_parts {l : PyStr} (h : pyStrip l = l) :
    l.dropWhile isSpaceC = l ∧
      l.reverse.dropWhile isSpaceC = l.reverse := by
  have h1 : (l.dropWhile isSpaceC).length ≤ l.length :=
    (List.dropWhile_suffix _).sublist.length_le
  have h2 : (((l.dropWhile isSpaceC).reverse.dropWhile isSpaceC)).length ≤
      (l.dropWhile isSpaceC).length := by
    simpa using
      (List.dropWhile_suffix (l := (l.dropWhile isSpaceC).reverse)
        isSpaceC).sublist.length_le
  have hlen := congrArg List.length h
  unfold pyStrip at hlen
  simp only [List.length_reverse] at hlen
  have e1 : l.dropWhile isSpaceC = l := by
    refine (List.dropWhile_suffix _).sublist.eq_of_length ?_
    omega
  refine ⟨e1, ?_⟩
  have e2 : pyStrip l = (l.reverse.dropWhile isSpaceC).reverse := by
    unfold pyStrip
    rw [e1]
  rw [e2] at h
  have := congrArg List.reverse h
  simpa using this

lemma strip_of_parts {l : PyStr} (h1 : l.dropWhile isSpaceC = l)
    (h2 : l.reverse.dropWhile isSpaceC = l.reverse) : pyStrip l = l := by
  unfold pyStrip
  rw [h1, h2, List.reverse_reverse]

/-- Being a fixed point of `dropWhile` depends only on the predicate mask. -/
lemma dropWhile_eq_self_of_mask {p : Nat → Bool} {a b : PyStr}
    (hm : a.map p = b.map p) (ha : a.dropWhile p = a) :
    b.dropWhile p = b := by
  cases b with
  | nil => rfl
  | cons c t =>
      cases a with
      | nil => simp at hm
      | cons c' t' =>
          simp only [List.map_cons, List.cons.injEq] at hm
          have hc' := dropWhile_cons_eq_self ha
          have hc : p c = false := hm.1 ▸ hc'
          rw [List.dropWhile_cons, if_neg (by simp [hc])]

/-- Being a fixed point of `pyStrip` depends only on the whitespace mask. -/
lemma strip_eq_self_of_mask {a b : PyStr}
    (hm : a.map isSpaceC = b.map isSpaceC) (ha : pyStrip a = a) :
    pyStrip b = b := by
  obtain ⟨h1, h2⟩ := strip_parts ha
  have hmrev : a.reverse.map isSpaceC = b.reverse.map isSpaceC := by
    rw [List.map_reverse, List.map_reverse, hm]
  exact strip_of_parts (dropWhile_eq_self_of_mask hm h1)
    (dropWhile_eq_self_of_mask hmrev h2)

lemma pyStrip_pyStrip (l : PyStr) : pyStrip (pyStrip l) = pyStrip l := by
  have e : pyStrip l =
      ((l.dropWhile isSpaceC).reverse.dropWhile isSpaceC).reverse := rfl
  refine strip_of_parts ?_ ?_
  · rw [e]
    cases hv : ((l.dropWhile isSpaceC).reverse.dropWhile isSpaceC).reverse with
    | nil => rfl
    | cons c t =>
        have h0 : (l.dropWhile isSpaceC).reverse.dropWhile isSpaceC <:+
            (l.dropWhile isSpaceC).reverse := List.dropWhile_suffix _
        have hpre := List.reverse_prefix.mpr h0
        rw [List.reverse_reverse] at hpre
        rw [hv] at hpre
        obtain ⟨rest, hrest⟩ := hpre
        have hu : l.dropWhile isSpaceC = c :: (t ++ rest) := by
          rw [← hrest]
          rfl
        have hc := head_dropWhile_false hu
        rw [List.dropWhile_cons, if_neg (by simp [hc])]
  · rw [e, List.reverse_reverse]
    exact dropWhile_dropWhile _ _

lemma pyLower_pyStrip (l : PyStr) :
    pyLower (pyStrip l) = pyStrip (pyLower l) := by
  have hfp : (isSpaceC ∘ toLowerC) = isSpaceC := funext isSpaceC_toLowerC
  have key : ∀ x : PyStr, (x.dropWhile isSpaceC).map toLowerC =
      (x.map toLowerC).dropWhile isSpaceC := by
    intro x
    rw [List.dropWhile_map, hfp]
  calc pyLower (pyStrip l)
      = (((l.dropWhile isSpaceC).reverse.dropWhile isSpaceC).map
          toLowerC).reverse := by
        unfold pyStrip pyLower
        rw [List.map_reverse]
    _ = (((l.dropWhile isSpaceC).reverse.map toLowerC).dropWhile
          isSpaceC).reverse := by rw [key]
    _ = ((((l.dropWhile isSpaceC).map toLowerC).reverse).dropWhile
          isSpaceC).reverse := by rw [List.map_reverse]
    _ = ((((l.map toLowerC).dropWhile isSpaceC).reverse).dropWhile
          isSpaceC).reverse := by rw [key]
    _ = pyStrip (pyLower l) := rfl

/-- `pyStrip` fixes the output of `pyTitle` applied to a stripped string. -/
lemma pyStrip_pyTitle_pyStrip (l : PyStr) :
    pyStrip (pyTitle (pyStrip l)) = pyTitle (pyStrip l) :=
  strip_eq_self_of_mask (map_isSpaceC_titleGo (pyStrip l) false).symm
    (pyStrip_pyStrip l)

lemma lookupP_mem {α : Type} {t : List (PyStr × α)} {k : PyStr} {v : α}
    (h : alist.lookupP t k = some v) : (k, v) ∈ t := by
  induction t with
  | nil => simp [alist.lookupP] at h
  | cons kv rest ih =>
      obtain ⟨k', v'⟩ := kv
      simp only [alist.lookupP] at h
      split at h
      · next heq =>
          obtain rfl := Option.some.inj h
          subst heq
          exact List.mem_cons_self _ _
      · exact List.mem_cons_of_mem _ (ih h)

/-- The normalized field on an alias hit is the alias table's value. -/
lemma normalize_normalized_alias {s v : PyStr}
    (h : alist.lookupP SKILL_ALIASES (pyStrip (pyLower s)) = some v) :
    (normalize s).normalized = v := by
  unfold normalize
  dsimp only
  rw [h]

/-- The normalized field on an alias miss is `_capitalize_skill` of the
input (in both the category-found and the unknown branch). -/
lemma normalize_normalized_noalias {s : PyStr}
    (h : alist.lookupP SKILL_ALIASES (pyStrip (pyLower s)) = none) :
    (normalize s).normalized = capitalize_skill s := by
  unfold normalize
  dsimp only
  rw [h]
  dsimp only
  split <;> rfl

set_option maxRecDepth 4000 in
set_option maxHeartbeats 1000000 in
/-- The special-case values whose keys are not alias keys renormalize to
themselves. -/
lemma special_fix : ∀ kv ∈ special_cases,
    alist.lookupP SKILL_ALIASES kv.1 = none →
    (normalize kv.2).normalized = kv.2 := by decide

/-- Title casing a stripped token does not change its lower-stripped key. -/
lemma skill_lower_title (s : PyStr) :
    pyStrip (pyLower (pyTitle (pyStrip s))) = pyStrip (pyLower s) := by
  unfold pyTitle
  rw [pyLower_titleGo, pyLower_pyStrip, pyStrip_pyStrip]

/-- A capitalized non-alias token is a fixed point of normalization's
normalized field. -/
lemma capitalize_fix {s : PyStr}
    (h : alist.lookupP SKILL_ALIASES (pyStrip (pyLower s)) = none) :
    (normalize (capitalize_skill s)).normalized = capitalize_skill s := by
  unfold capitalize_skill
  dsimp only
  cases hsp : alist.lookupP special_cases (pyStrip (pyLower s)) with
  | some v => exact special_fix _ (lookupP_mem hsp) h
  | none =>
      have hlk : alist.lookupP SKILL_ALIASES
          (pyStrip (pyLower (pyTitle (pyStrip s)))) = none := by
        rw [skill_lower_title]
        exact h
      rw [normalize_normalized_noalias hlk]
      unfold capitalize_skill
      dsimp only
      have hsp2 : alist.lookupP special_cases
          (pyStrip (pyLower (pyTitle (pyStrip s)))) = none := by
        rw [skill_lower_title]
        exact hsp
      rw [hsp2, pyStrip_pyTitle_pyStrip]
      unfold pyTitle
      exact titleGo_titleGo _ false

set_option maxRecDepth 10000 in
set_option maxHeartbeats 4000000 in
/-- Every alias-table value stabilizes after one more normalization. -/
lemma alias_value_fix : ∀ kv ∈ SKILL_ALIASES,
    (normalize ((normalize kv.2).normalized)).normalized =
      (normalize kv.2).normalized := by decide

lemma pymin_le_left (a b : ℚ) : pymin a b ≤ a := by
  unfold pymin; split
  · exact le_refl a
  · next h => linarith [lt_of_not_le h]

lemma pymin_le_right (a b : ℚ) : pymin a b ≤ b := by
  unfold pymin; split
  · next h => exact h
  · exact le_refl b

lemma le_pymin {c a b : ℚ} (ha : c ≤ a) (hb : c ≤ b) : c ≤ pymin a b := by
  unfold pymin; split
  · exact ha
  · exact hb

lemma pymin_nonneg {a b : ℚ} (ha : 0 ≤ a) (hb : 0 ≤ b) : 0 ≤ pymin a b :=
  le_pymin ha hb

lemma le_pymax_left (a b : ℚ) : a ≤ pymax a b := by
  unfold pymax; split
  · exact le_refl a
  · next h => linarith [lt_of_not_le h]

lemma pymax_le {a b c : ℚ} (ha : a ≤ c) (hb : b ≤ c) : pymax a b ≤ c := by
  unfold pymax; split
  · exact ha
  · exact hb

/-- Bounds for the adjusted skill-match expression of
`_calculate_job_match`: with a non-negative base match, critical component at
least `-1/2`, and non-negative related boost, the adjusted score lies in
`[-0.15, 1]`. -/
lemma adjusted_match_bounds (sm0 cs rb : ℚ) (b : Bool)
    (h0 : 0 ≤ sm0) (hcs : -(1 / 2) ≤ cs) (hrb : 0 ≤ rb) :
    -(3 / 20) ≤ pymin 1
      ((if b then sm0 else pymin 1 (sm0 + cs * (3 / 10))) + rb * (2 / 10)) ∧
    pymin 1
      ((if b then sm0 else pymin 1 (sm0 + cs * (3 / 10))) + rb * (2 / 10)) ≤ 1 := by
  have hrb' : 0 ≤ rb * (2 / 10) := by positivity
  have hstep : -(3 / 20 : ℚ) ≤
      (if b then sm0 else pymin 1 (sm0 + cs * (3 / 10))) := by
    split
    · linarith
    · refine le_pymin (by norm_num) ?_
      have := mul_le_mul_of_nonneg_right hcs (by norm_num : (0 : ℚ) ≤ 3 / 10)
      linarith
  exact ⟨le_pymin (by norm_num) (by linarith), pymin_le_left _ _⟩

/-- While inside a section, `section_scan` returns the accumulator followed
by a prefix of the remaining lines — unless a later header line resets the
accumulator, in which case the result is an infix of the remaining lines. -/
lemma section_scan_true_spec (isHeader isOther : PyStr → Bool) :
    ∀ ls acc : List PyStr,
      (∃ t, t <+: ls ∧
        section_scan isHeader isOther true acc ls = acc.reverse ++ t) ∨
      (∃ u, u <:+: ls ∧ section_scan isHeader isOther true acc ls = u) := by
  intro ls
  induction ls with
  | nil =>
      intro acc
      exact Or.inl ⟨[], List.nil_prefix, by simp [section_scan]⟩
  | cons l rest ih =>
      intro acc
      by_cases hh : isHeader l
      · rcases ih [] with ⟨t, ht, he⟩ | ⟨u, hu, he⟩
        · exact Or.inr ⟨t, List.infix_cons ht.isInfix,
            by simpa [section_scan, hh] using he⟩
        · exact Or.inr ⟨u, List.infix_cons hu,
            by simpa [section_scan, hh] using he⟩
      · by_cases ho : isOther l
        · exact Or.inl ⟨[], List.nil_prefix, by simp [section_scan, hh, ho]⟩
        · rcases ih (l :: acc) with ⟨t, ht, he⟩ | ⟨u, hu, he⟩
          · refine Or.inl ⟨l :: t, List.cons_prefix_cons.mpr ⟨rfl, ht⟩, ?_⟩
            simp only [section_scan, hh, ho, if_false, if_true, ite_false,
              ite_true, he, List.reverse_cons, List.append_assoc,
              List.singleton_append]
            simp [hh, ho]
          · exact Or.inr ⟨u, List.infix_cons hu,
              by simpa [section_scan, hh, ho] using he⟩

/-- Scanning from outside the section yields an infix of the line list. -/
lemma section_scan_false_contiguous (isHeader isOther : PyStr → Bool) :
    ∀ ls : List PyStr, section_scan isHeader isOther false [] ls <:+: ls := by
  intro ls
  induction ls with
  | nil => exact List.infix_rfl
  | cons l rest ih =>
      by_cases hh : isHeader l
      · rcases section_scan_true_spec isHeader isOther rest []
          with ⟨t, ht, he⟩ | ⟨u, hu, he⟩
        · have hrw : section_scan isHeader isOther false [] (l :: rest) = t := by
            simpa [section_scan, hh] using he
          rw [hrw]; exact List.infix_cons ht.isInfix
        · have hrw : section_scan isHeader isOther false [] (l :: rest) = u := by
            simpa [section_scan, hh] using he
          rw [hrw]; exact List.infix_cons hu
      · have hrw : section_scan isHeader isOther false [] (l :: rest) =
            section_scan isHeader isOther false [] rest := by
          simp [section_scan, hh]
        rw [hrw]; exact List.infix_cons ih

/-- Skill relevance lies in `[0, 107.5]`; the uncapped middle branch reaches
`107.5` at 20 skills. -/
lemma score_skill_relevance_bounds (p : Option SkillProfile) :
    0 ≤ score_skill_relevance p ∧ score_skill_relevance p ≤ 215 / 2 := by
  unfold score_skill_relevance
  cases p with
  | none => norm_num
  | some profile =>
      dsimp only
      split
      · exact ⟨pymin_nonneg (by norm_num) (by positivity),
          le_trans (pymin_le_left _ _) (by norm_num)⟩
      · split
        · next h1 h2 =>
            have h20 : (20 : ℚ) ≤ (profile.all_skills.length : ℚ) := by
              exact_mod_cast Nat.le_of_lt h2
            exact ⟨le_pymin (by norm_num) (by linarith),
              le_trans (pymin_le_left _ _) (by norm_num)⟩
        · next h1 h2 =>
            have h5 : (5 : ℚ) ≤ (profile.all_skills.length : ℚ) := by
              exact_mod_cast Nat.not_lt.mp h1
            have h20 : (profile.all_skills.length : ℚ) ≤ 20 := by
              exact_mod_cast Nat.not_lt.mp h2
            constructor <;> nlinarith

/-- Experience clarity lies in `[0, 70]` (base at most 40 plus bonus at most
30). -/
lemma score_experience_clarity_bounds (r : ResumeData) :
    0 ≤ score_experience_clarity r ∧ score_experience_clarity r ≤ 70 := by
  unfold score_experience_clarity
  split
  · norm_num
  · next h =>
      have hne : r.experiences ≠ [] := by
        simpa [List.isEmpty_iff] using h
      have hn : (0 : ℚ) < (r.experiences.length : ℚ) := by
        exact_mod_cast List.length_pos.mpr hne
      have hclear : ((r.experiences.countP fun e =>
          !e.role.isEmpty && !e.company.isEmpty : Nat) : ℚ) ≤
          (r.experiences.length : ℚ) := by
        exact_mod_cast List.countP_le_length _
      have hbonus0 : (0 : ℚ) ≤ ((r.experiences.countP fun e =>
          !e.role.isEmpty && !e.company.isEmpty : Nat) : ℚ) /
          (r.experiences.length : ℚ) * 30 := by positivity
      have hbonus1 : ((r.experiences.countP fun e =>
          !e.role.isEmpty && !e.company.isEmpty : Nat) : ℚ) /
          (r.experiences.length : ℚ) * 30 ≤ 30 := by
        have : ((r.experiences.countP fun e =>
            !e.role.isEmpty && !e.company.isEmpty : Nat) : ℚ) /
            (r.experiences.length : ℚ) ≤ 1 := by
          rw [div_le_one hn]; exact hclear
        linarith
      have hb0 : (0 : ℚ) ≤ pymin 40 ((r.experiences.length : ℚ) * 10) :=
        pymin_nonneg (by norm_num) (by positivity)
      have hb1 : pymin 40 ((r.experiences.length : ℚ) * 10) ≤ 40 :=
        pymin_le_left _ _
      exact ⟨le_pymin (by norm_num) (by linarith),
        le_trans (pymin_le_right _ _) (by linarith)⟩

/-- Keyword optimization lies in `[0, 100]`. -/
lemma score_keyword_optimization_bounds (r : ResumeData) :
    0 ≤ score_keyword_optimization r ∧ score_keyword_optimization r ≤ 100 := by
  unfold score_keyword_optimization
  dsimp only
  rw [if_neg (by decide)]
  have h30 : ((ATS_KEYWORDS_scorer.map fun cat => cat.2.length).sum : Nat) = 30 := by
    decide
  rw [h30]
  generalize hF : ((ATS_KEYWORDS_scorer.map fun cat =>
      cat.2.countP fun keyword =>
        pyContains (pyLower r.raw_text) (pyLower keyword)).sum : Nat) = F
  have hfound : F ≤ 30 := by
    rw [← hF]
    calc (ATS_KEYWORDS_scorer.map fun cat =>
          cat.2.countP fun keyword =>
            pyContains (pyLower r.raw_text) (pyLower keyword)).sum
        ≤ (ATS_KEYWORDS_scorer.map fun cat => cat.2.length).sum := by
          refine List.sum_le_sum ?_
          intro cat _
          exact List.countP_le_length _
      _ = 30 := h30
  push_cast
  have hf : (F : ℚ) ≤ 30 := by exact_mod_cast hfound
  have hks0 : (0 : ℚ) ≤ (F : ℚ) / 30 * 100 := by positivity
  have hks1 : (F : ℚ) / 30 * 100 ≤ 100 := by
    have hdiv : (F : ℚ) / 30 ≤ 1 := by
      rw [div_le_one (by norm_num)]
      exact hf
    linarith
  split
  · exact ⟨le_pymin (by norm_num) (by linarith), pymin_le_left _ _⟩
  · exact ⟨hks0, hks1⟩

/-- Structure/readability lies in `[0, 100]` (in fact `[50, 100]`). -/
lemma score_structure_readability_bounds (r : ResumeData) :
    0 ≤ score_structure_readability r ∧
      score_structure_readability r ≤ 100 := by
  unfold score_structure_readability
  dsimp only
  refine ⟨le_pymin (by norm_num) ?_, pymin_le_left _ _⟩
  have h1 : (0 : ℚ) ≤ if !r.email.isEmpty then 5 else 0 := by
    split <;> norm_num
  have h2 : (0 : ℚ) ≤ if !r.phone.isEmpty then 5 else 0 := by
    split <;> norm_num
  have h3 : (0 : ℚ) ≤
      if !r.linkedin.isEmpty || !r.github.isEmpty then 5 else 0 := by
    split <;> norm_num
  have h4 : (0 : ℚ) ≤ if !r.projects.isEmpty then
      pymin 10 ((r.projects.length : ℚ) * 5) else 0 := by
    split
    · exact pymin_nonneg (by norm_num) (by positivity)
    · norm_num
  have h5 : (0 : ℚ) ≤ ((
      (if !r.summary.isEmpty then 1 else 0) +
      (if !r.technical_skills.isEmpty || !r.soft_skills.isEmpty then 1 else 0) +
      (if !r.experiences.isEmpty then 1 else 0) +
      (if !r.education.isEmpty then 1 else 0) : Nat) : ℚ) * 10 := by positivity
  linarith

/-- Completeness lies in `[0, 100]` (in fact `[0, 90]`). -/
lemma score_completeness_bounds (r : ResumeData) :
    0 ≤ score_completeness r ∧ score_completeness r ≤ 90 := by
  unfold score_completeness
  dsimp only
  have l1 : (0 : ℚ) ≤ (if !r.summary.isEmpty then 15 else 0) ∧
      (if !r.summary.isEmpty then (15 : ℚ) else 0) ≤ 15 := by
    split <;> norm_num
  have l2 : (0 : ℚ) ≤ (if !r.technical_skills.isEmpty || !r.soft_skills.isEmpty
        then 15 else 0) ∧
      (if !r.technical_skills.isEmpty || !r.soft_skills.isEmpty
        then (15 : ℚ) else 0) ≤ 15 := by
    split <;> norm_num
  have l3 : (0 : ℚ) ≤ (if !r.experiences.isEmpty then 20 else 0) ∧
      (if !r.experiences.isEmpty then (20 : ℚ) else 0) ≤ 20 := by
    split <;> norm_num
  have l4 : (0 : ℚ) ≤ (if !r.education.isEmpty then 15 else 0) ∧
      (if !r.education.isEmpty then (15 : ℚ) else 0) ≤ 15 := by
    split <;> norm_num
  have l5 : (0 : ℚ) ≤ (if !r.certifications.isEmpty then 10 else 0) ∧
      (if !r.certifications.isEmpty then (10 : ℚ) else 0) ≤ 10 := by
    split <;> norm_num
  have l6 : (0 : ℚ) ≤ (if !r.projects.isEmpty then 10 else 0) ∧
      (if !r.projects.isEmpty then (10 : ℚ) else 0) ≤ 10 := by
    split <;> norm_num
  have l7 : (0 : ℚ) ≤ (if !r.linkedin.isEmpty || !r.github.isEmpty ||
        !r.website.isEmpty then 5 else 0) ∧
      (if !r.linkedin.isEmpty || !r.github.isEmpty || !r.website.isEmpty
        then (5 : ℚ) else 0) ≤ 5 := by
    split <;> norm_num
  exact ⟨le_pymin (by norm_num)
      (by linarith [l1.1, l2.1, l3.1, l4.1, l5.1, l6.1, l7.1]),
    le_trans (pymin_le_right _ _)
      (by linarith [l1.2, l2.2, l3.2, l4.2, l5.2, l6.2, l7.2])⟩

/-- ATS compatibility lies in `[0, 100]` (explicitly clamped both ways). -/
lemma score_ats_compatibility_bounds (r : ResumeData) :
    0 ≤ score_ats_compatibility r ∧ score_ats_compatibility r ≤ 100 := by
  unfold score_ats_compatibility
  dsimp only
  exact ⟨le_pymax_left _ _, pymax_le (by norm_num) (pymin_le_left _ _)⟩

/-- `gradeRank ∘ get_grade` written as a step function of the score. -/
lemma gradeRank_get_grade (x : ℚ) :
    gradeRank (get_grade x) =
      if x ≥ 90 then 6 else if x ≥ 80 then 5 else if x ≥ 70 then 4
      else if x ≥ 60 then 3 else if x ≥ 50 then 2 else if x ≥ 40 then 1
      else 0 := by
  unfold get_grade
  split_ifs <;> decide

/-- The overall score of `score_resume` written with the literal weights of
`SCORING_WEIGHTS`. -/
lemma score_resume_overall_eq (r : ResumeData) (p : Option SkillProfile) :
    (score_resume r p).overall_score =
      score_skill_relevance p * (25 / 100) +
      score_experience_clarity r * (25 / 100) +
      score_keyword_optimization r * (20 / 100) +
      score_structure_readability r * (20 / 100) +
      score_completeness r * (10 / 100) := rfl

end Resume

namespace Resume

/-! ## Claim theorems -/

/-- C10: `calculate_skill_match` with an empty required-skills list returns
exactly match percentage `1.0` with empty matched and missing lists; the
empty-set guard fires before the division. -/
theorem C10_skill_match_empty_required (candidate_skills : List PyStr) :
    calculate_skill_match candidate_skills [] = (1, [], []) := rfl

/-- C7: a candidate with skills `{python, sql}` against a job requiring
`{Python, Java, SQL, Git}` with critical skills `{Python, Java}` and no
related-skill overlap matches at exactly `0.575`: base `2/4 = 0.5`, critical
component `(1 - 0.5·1)/2 = 0.25`, adjusted `0.5 + 0.25·0.3`. -/
theorem C7_concrete_job_match :
    (calculate_job_match
        [pstr "Python", pstr "Java", pstr "SQL", pstr "Git"]
        [pstr "Python", pstr "Java"]
        [pstr "python", pstr "sql"]).skill_match_percentage = 575 / 1000 ∧
    (calculate_job_match
        [pstr "Python", pstr "Java", pstr "SQL", pstr "Git"]
        [pstr "Python", pstr "Java"]
        [pstr "python", pstr "sql"]).critical_matched = 1 ∧
    (calculate_job_match
        [pstr "Python", pstr "Java", pstr "SQL", pstr "Git"]
        [pstr "Python", pstr "Java"]
        [pstr "python", pstr "sql"]).critical_missing = 1 := by
  refine ⟨?_, by decide, by decide⟩
  norm_num +decide [calculate_job_match, calculate_related_skill_boost, pymin]

/-- C9 counterexample: for the unknown role id `"astronaut"`, the gap
analysis error string is `"Unknown job: astronaut"`, not
`"Unknown role: astronaut"` as claimed, and the roadmap error string is the
constant `"Unknown job target"` with no interpolated id. -/
theorem C9_error_strings_differ :
    get_skill_gap_analysis [] (pstr "astronaut") =
      .error (pstr "Unknown job: astronaut") ∧
    get_career_roadmap [] (pstr "mid") (pstr "astronaut") =
      .error (pstr "Unknown job target") ∧
    pstr "Unknown job: astronaut" ≠ pstr "Unknown role: astronaut" ∧
    pstr "Unknown job target" ≠ pstr "Unknown role: astronaut" :=
  ⟨rfl, rfl, by decide, by decide⟩

/-- C9 amended: for every job-role id absent from the job-role table, skill
gap analysis returns the explicit error `"Unknown job: <id>"` (the id
interpolated) and career roadmap returns the explicit constant error
`"Unknown job target"`; neither raises. -/
theorem C9_unknown_role_explicit_error
    (all_skills : List PyStr) (current_level target_job_id : PyStr)
    (h : alist.lookupP JOB_ROLES target_job_id = none) :
    get_skill_gap_analysis all_skills target_job_id =
      .error (pstr "Unknown job: " ++ target_job_id) ∧
    get_career_roadmap all_skills current_level target_job_id =
      .error (pstr "Unknown job target") := by
  constructor
  · unfold get_skill_gap_analysis
    rw [h]
  · unfold get_career_roadmap
    rw [h]

/-- C9 witness: the amended error behaviour at the concrete id
`"astronaut"`. -/
theorem C9_unknown_role_explicit_error_witness :
    get_skill_gap_analysis [] (pstr "astronaut") =
      .error (pstr "Unknown job: " ++ pstr "astronaut") ∧
    get_career_roadmap [] (pstr "mid") (pstr "astronaut") =
      .error (pstr "Unknown job target") :=
  C9_unknown_role_explicit_error [] (pstr "mid") (pstr "astronaut") (by decide)

/-- C2: at the failing input `"qwerty"` (no alias, not in the taxonomy) the
code returns category `"unknown"` with confidence `0.95`, not the claimed
`0.5`: `_get_category` returns the truthy string `"unknown"`, so the
`if category:` guard always passes and the intended `0.5` fallback is dead —
every normalization confidence is `1.0` or `0.95`. -/
theorem C2_unknown_confidence_is_95 :
    (normalize (pstr "qwerty")).is_alias = false ∧
    (normalize (pstr "qwerty")).category = pstr "unknown" ∧
    (normalize (pstr "qwerty")).confidence = 95 / 100 ∧
    ∀ skill : PyStr, (normalize skill).confidence = 1 ∨
      (normalize skill).confidence = 95 / 100 := by
  refine ⟨by decide, by decide, rfl, fun skill => ?_⟩
  unfold normalize
  dsimp only
  cases h : alist.lookupP SKILL_ALIASES (pyStrip (pyLower skill)) with
  | some v => exact Or.inl rfl
  | none =>
      right
      rw [if_pos (get_category_ne_nil _)]

/-- C1 counterexample: normalization is not idempotent.  For `s = "js"` the
normalized field is `"JavaScript"`, but renormalizing that yields
`"Javascript"` (Python `.title()` lowercases the interior capital), so
`normalize(normalize(s).normalized) ≠ normalize(s)` and the normalized field
is not a fixed point. -/
theorem C1_not_idempotent :
    (normalize (pstr "js")).normalized = pstr "JavaScript" ∧
    (normalize ((normalize (pstr "js")).normalized)).normalized =
      pstr "Javascript" ∧
    normalize ((normalize (pstr "js")).normalized) ≠ normalize (pstr "js") := by
  refine ⟨by decide, by decide, by decide⟩

/-- C1 amended: normalization is not idempotent (see the counterexample),
but it stabilizes after two applications — for every skill string `s`, the
normalized field obtained by renormalizing once is a fixed point of
`s ↦ (normalize s).normalized`. -/
theorem C1_normalize_stabilizes (s : PyStr) :
    (normalize ((normalize ((normalize s).normalized)).normalized)).normalized
      = (normalize ((normalize s).normalized)).normalized := by
  cases h : alist.lookupP SKILL_ALIASES (pyStrip (pyLower s)) with
  | none =>
      rw [normalize_normalized_noalias h, capitalize_fix h, capitalize_fix h]
  | some v =>
      have h2 : (normalize ((normalize v).normalized)).normalized =
          (normalize v).normalized :=
        alias_value_fix (pyStrip (pyLower s), v) (lookupP_mem h)
      rw [normalize_normalized_alias h]
      exact h2

/-- C4 counterexample: on the document
`"EDUCATION AND EXPERIENCE\nBS - MIT\n2020"` the single header line matches
both the experience and the education extractors, so the line `"BS - MIT"`
(and `"2020"`) is assigned to both section bodies — the section bodies
overlap and the bodies plus a remainder cannot be a permutation of the
document's non-empty lines. -/
theorem C4_section_bodies_overlap :
    pstr "BS - MIT" ∈ experience_section_lines
      (pstr "EDUCATION AND EXPERIENCE\nBS - MIT\n2020") ∧
    pstr "BS - MIT" ∈ education_section_lines
      (pstr "EDUCATION AND EXPERIENCE\nBS - MIT\n2020") ∧
    pstr "2020" ∈ experience_section_lines
      (pstr "EDUCATION AND EXPERIENCE\nBS - MIT\n2020") ∧
    pstr "2020" ∈ education_section_lines
      (pstr "EDUCATION AND EXPERIENCE\nBS - MIT\n2020") := by
  decide

/-- C4 amended: section bodies are not guaranteed disjoint — a line matching
several sections' header keywords (e.g. `"EDUCATION AND EXPERIENCE"`) opens
more than one section and the following lines are collected into each of
their bodies.  What does hold is that each extractor's collected body is a
contiguous infix of the document's line list. -/
theorem C4_section_bodies_are_contiguous (text : PyStr) :
    experience_section_lines text <:+: pySplitLines text ∧
    education_section_lines text <:+: pySplitLines text :=
  ⟨section_scan_false_contiguous _ _ _, section_scan_false_contiguous _ _ _⟩

/-- C5 counterexample: a skill profile with 18 skills scores
`70 + 13·2.5 = 102.5 > 100` on skill relevance — the sub-score is not bounded
by 100 (the `5 ≤ n ≤ 20` branch has no cap). -/
theorem C5_skill_relevance_exceeds_100 :
    (score_resume {}
        (some ⟨(List.range 18).map fun i => [65 + i]⟩)).skill_relevance_score =
      205 / 2 ∧
    ¬ ((205 : ℚ) / 2 ≤ 100) := by
  refine ⟨?_, by norm_num⟩
  norm_num +decide [score_resume, score_skill_relevance, pymin]

/-- C5 amended: five of the six sub-scores (experience clarity, keyword
optimization, structure/readability, completeness, ATS compatibility) lie in
`[0, 100]`, but skill relevance only lies in `[0, 107.5]` and can exceed 100
(see the counterexample); the overall score still lies in `[0, 100]`, and
the letter grade is a deterministic, monotonically non-decreasing step
function of the overall score. -/
theorem C5_score_bounds :
    (∀ (r : ResumeData) (p : Option SkillProfile),
      (0 ≤ (score_resume r p).skill_relevance_score ∧
        (score_resume r p).skill_relevance_score ≤ 215 / 2) ∧
      (0 ≤ (score_resume r p).experience_clarity_score ∧
        (score_resume r p).experience_clarity_score ≤ 100) ∧
      (0 ≤ (score_resume r p).keyword_optimization_score ∧
        (score_resume r p).keyword_optimization_score ≤ 100) ∧
      (0 ≤ (score_resume r p).structure_readability_score ∧
        (score_resume r p).structure_readability_score ≤ 100) ∧
      (0 ≤ (score_resume r p).completeness_score ∧
        (score_resume r p).completeness_score ≤ 100) ∧
      (0 ≤ (score_resume r p).ats_compatibility_score ∧
        (score_resume r p).ats_compatibility_score ≤ 100) ∧
      (0 ≤ (score_resume r p).overall_score ∧
        (score_resume r p).overall_score ≤ 100)) ∧
    (∀ x y : ℚ, x ≤ y →
      gradeRank (get_grade x) ≤ gradeRank (get_grade y)) := by
  constructor
  · intro r p
    obtain ⟨s1a, s1b⟩ := score_skill_relevance_bounds p
    obtain ⟨s2a, s2b⟩ := score_experience_clarity_bounds r
    obtain ⟨s3a, s3b⟩ := score_keyword_optimization_bounds r
    obtain ⟨s4a, s4b⟩ := score_structure_readability_bounds r
    obtain ⟨s5a, s5b⟩ := score_completeness_bounds r
    obtain ⟨s6a, s6b⟩ := score_ats_compatibility_bounds r
    have e1 : (score_resume r p).skill_relevance_score =
        score_skill_relevance p := rfl
    have e2 : (score_resume r p).experience_clarity_score =
        score_experience_clarity r := rfl
    have e3 : (score_resume r p).keyword_optimization_score =
        score_keyword_optimization r := rfl
    have e4 : (score_resume r p).structure_readability_score =
        score_structure_readability r := rfl
    have e5 : (score_resume r p).completeness_score =
        score_completeness r := rfl
    have e6 : (score_resume r p).ats_compatibility_score =
        score_ats_compatibility r := rfl
    rw [e1, e2, e3, e4, e5, e6, score_resume_overall_eq]
    refine ⟨⟨s1a, s1b⟩, ⟨s2a, by linarith⟩, ⟨s3a, s3b⟩, ⟨s4a, s4b⟩,
      ⟨s5a, by linarith⟩, ⟨s6a, s6b⟩, by linarith, by linarith⟩
  · intro x y hxy
    rw [gradeRank_get_grade, gradeRank_get_grade]
    split_ifs <;> first | omega | linarith

/-- C5 witness: the grade step function applied at the concrete ordered pair
`50 ≤ 95`. -/
theorem C5_score_bounds_witness :
    gradeRank (get_grade 50) ≤ gradeRank (get_grade 95) :=
  C5_score_bounds.2 50 95 (by norm_num)

/-- C6: the overall resume score is the weighted sum of exactly the five
sub-scores skill relevance, experience clarity, keyword optimization,
structure/readability and completeness, with the fixed `SCORING_WEIGHTS`
summing to `1.0`; the ATS-compatibility sub-score is computed and reported
but never enters the overall score, so two inputs agreeing on the five
weighted sub-scores have equal overall scores regardless of their ATS
sub-scores. -/
theorem C6_ats_excluded_from_overall :
    (SCORING_WEIGHTS.map fun kv => kv.2).sum = 1 ∧
    (∀ (r : ResumeData) (p : Option SkillProfile),
      (score_resume r p).overall_score =
        score_skill_relevance p * (25 / 100) +
        score_experience_clarity r * (25 / 100) +
        score_keyword_optimization r * (20 / 100) +
        score_structure_readability r * (20 / 100) +
        score_completeness r * (10 / 100)) ∧
    (∀ (r₁ r₂ : ResumeData) (p₁ p₂ : Option SkillProfile),
      score_skill_relevance p₁ = score_skill_relevance p₂ →
      score_experience_clarity r₁ = score_experience_clarity r₂ →
      score_keyword_optimization r₁ = score_keyword_optimization r₂ →
      score_structure_readability r₁ = score_structure_readability r₂ →
      score_completeness r₁ = score_completeness r₂ →
      (score_resume r₁ p₁).overall_score = (score_resume r₂ p₂).overall_score) := by
  refine ⟨by norm_num [SCORING_WEIGHTS], score_resume_overall_eq, ?_⟩
  intro r₁ r₂ p₁ p₂ h₁ h₂ h₃ h₄ h₅
  rw [score_resume_overall_eq, score_resume_overall_eq, h₁, h₂, h₃, h₄, h₅]

/-- C6 witness: two concrete resumes differing only in raw text that changes
the ATS sub-score (an action verb) have the same overall score. -/
theorem C6_ats_excluded_from_overall_witness :
    (score_resume { raw_text := pstr "led" } none).overall_score =
      (score_resume {} none).overall_score ∧
    (score_resume { raw_text := pstr "led" } none).ats_compatibility_score ≠
      (score_resume {} none).ats_compatibility_score :=
  ⟨C6_ats_excluded_from_overall.2.2 { raw_text := pstr "led" } {} none none
      rfl rfl rfl rfl rfl,
   by
    have h1 : (score_resume { raw_text := pstr "led" }
        none).ats_compatibility_score = 72 := by
      norm_num +decide [score_resume, score_ats_compatibility, pymin, pymax]
    have h2 : (score_resume {} none).ats_compatibility_score = 70 := by
      norm_num +decide [score_resume, score_ats_compatibility, pymin, pymax]
    rw [h1, h2]
    norm_num⟩

/-- C3: whenever the date-range regex captured both date substrings and a
year is extractable from each end (with `present`/`current`/`now` mapped to
the current calendar year), the duration is `(end_year - start_year) * 12`
months when `end_year ≥ start_year` and `0` — never negative — when
`end_year < start_year`. -/
theorem C3_date_range_duration (start_date end_date : PyStr)
    (current_year start_year end_year : Nat)
    (hs : extract_year start_date current_year = some start_year)
    (he : extract_year end_date current_year = some end_year)
    (hs0 : start_year ≠ 0) (he0 : end_year ≠ 0) :
    parse_duration_date_range start_date end_date current_year =
      some (if start_year ≤ end_year
            then ((end_year : Int) - (start_year : Int)) * 12 else 0) ∧
    ∀ m, parse_duration_date_range start_date end_date current_year = some m →
      0 ≤ m := by
  have hmain : parse_duration_date_range start_date end_date current_year =
      some (if start_year ≤ end_year
            then ((end_year : Int) - (start_year : Int)) * 12 else 0) := by
    unfold parse_duration_date_range
    rw [hs, he]
    dsimp only
    rw [if_pos (show start_year ≠ 0 ∧ end_year ≠ 0 from ⟨hs0, he0⟩)]
    congr 1
    unfold pymaxI
    rcases le_or_lt start_year end_year with hle | hlt
    · have h1 : (start_year : Int) ≤ (end_year : Int) := by exact_mod_cast hle
      rw [if_pos (by nlinarith :
            (0 : Int) ≤ ((end_year : Int) - (start_year : Int)) * 12),
          if_pos hle]
    · have h1 : (end_year : Int) < (start_year : Int) := by exact_mod_cast hlt
      rw [if_neg (by nlinarith :
            ¬ (0 : Int) ≤ ((end_year : Int) - (start_year : Int)) * 12),
          if_neg (by omega)]
  refine ⟨hmain, fun m hm => ?_⟩
  rw [hmain] at hm
  obtain rfl : (if start_year ≤ end_year
      then ((end_year : Int) - (start_year : Int)) * 12 else 0) = m :=
    Option.some.inj hm
  split
  · next hle =>
      have : (start_year : Int) ≤ (end_year : Int) := by exact_mod_cast hle
      nlinarith
  · exact le_refl 0

/-- C3 witness: `"Jan 2020" – "present"` in 2026 gives 72 months, and the
reversed range `"2024" – "2020"` gives 0, not a negative count. -/
theorem C3_date_range_duration_witness :
    (parse_duration_date_range (pstr "Jan 2020") (pstr "present") 2026 =
       some (if 2020 ≤ 2026
             then ((2026 : Int) - (2020 : Int)) * 12 else 0) ∧
     ∀ m, parse_duration_date_range (pstr "Jan 2020") (pstr "present") 2026 =
       some m → 0 ≤ m) ∧
    (parse_duration_date_range (pstr "2024") (pstr "2020") 2026 =
       some (if 2024 ≤ 2020
             then ((2020 : Int) - (2024 : Int)) * 12 else 0) ∧
     ∀ m, parse_duration_date_range (pstr "2024") (pstr "2020") 2026 =
       some m → 0 ≤ m) :=
  ⟨C3_date_range_duration (pstr "Jan 2020") (pstr "present") 2026 2020 2026
      (by decide) (by decide) (by decide) (by decide),
   C3_date_range_duration (pstr "2024") (pstr "2020") 2026 2024 2020
      (by decide) (by decide) (by decide) (by decide)⟩

/-- C8 counterexample: the match score is not clamped below 0.  An empty
candidate skill set against the `software_engineer` role (required and
critical skills exactly as in the tables) scores
`min(1, 0 + ((0 - 4·0.5)/4)·0.3) = -0.15 < 0`: the code only applies
`min(1.0, ·)`, never a lower clamp. -/
theorem C8_match_score_negative :
    (calculate_job_match
        (((alist.lookupP JOB_ROLES (pstr "software_engineer")).getD
            ⟨[], [], []⟩).required_skills)
        ((alist.lookupP CRITICAL_SKILLS (pstr "software_engineer")).getD [])
        []).skill_match_percentage = -(3 / 20) ∧
    ¬ ((0 : ℚ) ≤ -(3 / 20)) := by
  refine ⟨?_, by norm_num⟩
  norm_num +decide [calculate_job_match, calculate_related_skill_boost,
    pymin, JOB_ROLES, CRITICAL_SKILLS, alist.lookupP]

/-- C8 amended: the adjusted job match score is clamped above at `1` but has
no lower clamp: it always lies in `[-0.15, 1]` and can be negative.  The
recommendations list returned by `recommend_jobs` is sorted non-increasing
by match score and every entry has match score at least `0.2`. -/
theorem C8_match_bounds_and_ordering :
    (∀ required critical candidate : List PyStr,
      -(3 / 20) ≤
        (calculate_job_match required critical candidate).skill_match_percentage ∧
      (calculate_job_match required critical candidate).skill_match_percentage
        ≤ 1) ∧
    (∀ (all_skills : List PyStr) (top_n : Nat),
      List.Pairwise (fun a b => b.match_score ≤ a.match_score)
        (recommend_jobs all_skills top_n) ∧
      (recommend_jobs all_skills top_n).Forall fun rec =>
        (2 / 10 : ℚ) ≤ rec.match_score) := by
  constructor
  · intro required critical candidate
    unfold calculate_job_match
    dsimp only
    refine adjusted_match_bounds _ _ _ _ ?_ ?_ ?_
    · split
      · exact le_refl 0
      · positivity
    · rcases Nat.eq_zero_or_pos (critical.map pyLower).length with hz | hpos
      · rw [hz]
        norm_num
      · rw [le_div_iff₀ (by exact_mod_cast hpos)]
        have hcm : (0 : ℚ) ≤
            (((critical.map pyLower).dedup.filter fun s =>
              decide (s ∈ (required.map pyLower).dedup.filter fun t =>
                decide (t ∈ candidate))).length : ℚ) := by positivity
        have hmiss : (((critical.map pyLower).dedup.filter fun s =>
              decide (s ∈ (required.map pyLower).dedup.filter fun t =>
                decide (t ∉ candidate))).length : ℚ) ≤
            ((critical.map pyLower).length : ℚ) := by
          have h1 := List.length_filter_le
            (fun s => decide (s ∈ (required.map pyLower).dedup.filter fun t =>
              decide (t ∉ candidate))) (critical.map pyLower).dedup
          have h2 := (List.dedup_sublist (critical.map pyLower)).length_le
          exact_mod_cast le_trans h1 h2
        nlinarith
    · exact le_pymin (by positivity) (by norm_num)
  · intro all_skills top_n
    unfold recommend_jobs
    dsimp only
    constructor
    · refine List.Pairwise.sublist (List.take_sublist _ _) ?_
      have hs := @List.sorted_mergeSort JobRecommendation
        (fun a b => decide (b.match_score ≤ a.match_score))
        (fun a b c hab hbc => decide_eq_true
          (le_trans (of_decide_eq_true hbc) (of_decide_eq_true hab)))
        (fun a b => by
          rcases le_total a.match_score b.match_score with h | h <;>
            simp [h])
        (JOB_ROLES.filterMap fun entry =>
          let m := calculate_job_match entry.2.required_skills
            ((alist.lookupP CRITICAL_SKILLS entry.1).getD [])
            ((all_skills.map pyLower).dedup)
          if (2 / 10 : ℚ) ≤ m.skill_match_percentage then
            some (create_recommendation entry.1 entry.2 m)
          else none)
      exact hs.imp fun h => of_decide_eq_true h
    · rw [List.forall_iff_forall_mem]
      intro rec hrec
      have hmem := List.mem_mergeSort.mp (List.mem_of_mem_take hrec)
      obtain ⟨entry, -, heq⟩ := List.mem_filterMap.mp hmem
      split at heq
      · next hguard =>
          obtain rfl : create_recommendation entry.1 entry.2 _ = rec :=
            Option.some.inj heq
          exact hguard
      · exact absurd heq (by simp)

end Resume
